import Mathlib

/-!
# Rigid3D `CameraExample` : a shallow embedding of the scene driver

The C++ class `CameraExample` (src/examples/CameraExample.cpp) is embedded as
state-passing functions over a record of its members.  Every call the driver
makes on a collaborator (the shader program, the camera, the OpenGL device,
`GlUtils::checkGLErrors`, the base window class, `cout`) is appended to a
command trace, in source order.

Conventions.

* `float` literals that are only stored, negated or multiplied by `1`, `-1` or
  `0` (material colours, key deltas, matrix entries) are written as the
  rational number of their decimal text (`0.2f` is `1/5`); these operations are
  exact in binary32, so no rounding is lost.
* The field-of-view accumulator of `mouseScroll` is a `float` on which real
  additions are performed.  Its values are integers, so it is an `Int` and each
  addition is followed by `roundF32`, round-to-nearest-even onto the binary32
  grid.
* `std::vector::at` throws `std::out_of_range`; a member function that can
  throw returns `Except Sys Sys`, the error carrying the state at the throw.
-/

namespace Rigid3D

/-! ## glm vectors and matrices -/

/-- A `glm::vec3`. -/
structure Vec3 where
  x : ℚ
  y : ℚ
  z : ℚ
deriving DecidableEq, Repr

/-- A `glm::vec4`. -/
structure Vec4 where
  x : ℚ
  y : ℚ
  z : ℚ
  w : ℚ
deriving DecidableEq, Repr

/-- A `glm::mat4`, stored column-major as glm does: `c0 .. c3` are `m[0] .. m[3]`. -/
structure Mat4 where
  c0 : Vec4
  c1 : Vec4
  c2 : Vec4
  c3 : Vec4
deriving DecidableEq, Repr

/-- The constructor `vec3(s)`: all three components equal to `s`. -/
def Vec3.splat (s : ℚ) : Vec3 := ⟨s, s, s⟩

/-- The glm product `v * s` of a column by a scalar. -/
def Vec4.smul (v : Vec4) (s : ℚ) : Vec4 := ⟨v.x * s, v.y * s, v.z * s, v.w * s⟩

/-- The glm sum `a + b` of two columns. -/
def Vec4.add (a b : Vec4) : Vec4 := ⟨a.x + b.x, a.y + b.y, a.z + b.z, a.w + b.w⟩

/-- The default constructor `mat4()`: the identity matrix. -/
def Mat4.identity : Mat4 := ⟨⟨1, 0, 0, 0⟩, ⟨0, 1, 0, 0⟩, ⟨0, 0, 1, 0⟩, ⟨0, 0, 0, 1⟩⟩

/-- The library function `glm::translate(m, v)`:
`Result = m; Result[3] = m[0]*v[0] + m[1]*v[1] + m[2]*v[2] + m[3]`. -/
def translate (m : Mat4) (v : Vec3) : Mat4 :=
  { m with c3 := (((m.c0.smul v.x).add (m.c1.smul v.y)).add (m.c2.smul v.z)).add m.c3 }

/-- The overload `translate(m, x, y, z)` of glm/gtx/transform.hpp. -/
def translate3 (m : Mat4) (x y z : ℚ) : Mat4 := translate m ⟨x, y, z⟩

/-- The library function `glm::scale(m, v)`:
`Result[0] = m[0]*v[0]; Result[1] = m[1]*v[1]; Result[2] = m[2]*v[2]; Result[3] = m[3]`. -/
def scale (m : Mat4) (v : Vec3) : Mat4 :=
  ⟨m.c0.smul v.x, m.c1.smul v.y, m.c2.smul v.z, m.c3⟩

/-- The overload `scale(m, x, y, z)` of glm/gtx/transform.hpp. -/
def scale3 (m : Mat4) (x y z : ℚ) : Mat4 := scale m ⟨x, y, z⟩

/-- The matrix-vector product `m * v` (a linear combination of the columns). -/
def Mat4.mulVec (m : Mat4) (v : Vec4) : Vec4 :=
  (((m.c0.smul v.x).add (m.c1.smul v.y)).add (m.c2.smul v.z)).add (m.c3.smul v.w)

/-- The matrix product `a * b`: column `j` of the product is `a * b[j]`. -/
def Mat4.mul (a b : Mat4) : Mat4 :=
  ⟨a.mulVec b.c0, a.mulVec b.c1, a.mulVec b.c2, a.mulVec b.c3⟩

/-- The translation matrix `T(p)`. -/
def translationMatrix (p : Vec3) : Mat4 :=
  ⟨⟨1, 0, 0, 0⟩, ⟨0, 1, 0, 0⟩, ⟨0, 0, 1, 0⟩, ⟨p.x, p.y, p.z, 1⟩⟩

/-- The uniform scaling matrix `S(k)`. -/
def scalingMatrix (k : ℚ) : Mat4 :=
  ⟨⟨k, 0, 0, 0⟩, ⟨0, k, 0, 0⟩, ⟨0, 0, k, 0⟩, ⟨0, 0, 0, 1⟩⟩

/-- The homogeneous point `(v, 1)`. -/
def Vec3.point (v : Vec3) : Vec4 := ⟨v.x, v.y, v.z, 1⟩

/-! ## binary32 rounding of integers -/

/-- The spacing of binary32 values around the magnitude `a`: `1` below `2^24`,
doubling with every further binary digit (`fuel` bounds the number of
doublings). -/
def f32UlpAux : Nat → Nat → Nat
  | 0, _ => 1
  | fuel + 1, a => if a < 2 ^ 24 then 1 else 2 * f32UlpAux fuel (a / 2)

/-- The spacing of binary32 values around the magnitude `a`; a finite binary32
magnitude is below `2^128`, at most 104 doublings above `2^24`. -/
def f32Ulp (a : Nat) : Nat := f32UlpAux 104 a

/-- Round a natural number to the nearest multiple of the binary32 spacing at
its magnitude, ties to the even multiple. -/
def roundF32Nat (a : Nat) : Nat :=
  let u := f32Ulp a
  let q := a / u
  let r := a % u
  if 2 * r < u then q * u
  else if u < 2 * r then (q + 1) * u
  else if q % 2 = 0 then q * u
  else (q + 1) * u

/-- The binary32 result of an operation whose exact result is the integer `z`
(round to nearest, ties to even; the rule is symmetric in the sign). -/
def roundF32 (z : Int) : Int :=
  if 0 ≤ z then (roundF32Nat z.toNat : Int) else -(roundF32Nat (-z).toNat : Int)

/-! ## The command trace -/

/-- A method call on the `Camera` member. -/
inductive CameraCall where
  | lookAt (eye center up : Vec3)
  | translateRelative (x y z : ℚ)
  | yaw (angle : ℚ)
  | pitch (angle : ℚ)
  | roll (angle : ℚ)
  | setFieldOfViewY (fieldOfViewY : Int)
deriving DecidableEq, Repr

/-- The value handed to `ShaderProgram::setUniform`.  The last three stand for
the matrices read from the camera at that moment (`camera.getViewMatrix()`,
`camera.getProjectionMatrix()`, `mat3(camera.getViewMatrix())`). -/
inductive UniformValue where
  | float (f : ℚ)
  | vec3 (v : Vec3)
  | mat4 (m : Mat4)
  | cameraViewMatrix
  | cameraProjectionMatrix
  | cameraNormalMatrix
deriving DecidableEq, Repr

/-- One call issued by the driver on a collaborator. -/
inductive Call where
  | loadFromFile (vertexShaderFile fragmentShaderFile : String)
  | setUniform (uniformName : String) (value : UniformValue)
  | enable
  | disable
  | glGenVertexArrays (name : Nat)
  | glBindVertexArray (name : Nat)
  | glEnableVertexAttribArray (location : Int)
  | glGenBuffers (name : Nat)
  | glBindBuffer (target name : Nat)
  | glBufferData (target size usage : Nat)
  | glVertexAttribPointer (location : Int) (size type normalized stride offset : Nat)
  | glClearColor (r g b a : ℚ)
  | glDrawArrays (mode first count : Nat)
  | glDeleteBuffers (name : Nat)
  | glDeleteVertexArrays (name : Nat)
  | checkGLErrors
  | camera (c : CameraCall)
  | baseKeyInput (key scancode action mods : Int)
  | cout (fieldOfViewY : Int)
deriving DecidableEq, Repr

/-! ## Constants of the OpenGL and GLFW 3 headers -/

def GL_TRIANGLES : Nat := 4
def GL_FALSE : Nat := 0
def GL_FLOAT : Nat := 5126
def GL_ARRAY_BUFFER : Nat := 34962
def GL_STATIC_DRAW : Nat := 35044

def GLFW_RELEASE : Int := 0
def GLFW_PRESS : Int := 1
def GLFW_REPEAT : Int := 2

def GLFW_KEY_A : Int := 65
def GLFW_KEY_D : Int := 68
def GLFW_KEY_E : Int := 69
def GLFW_KEY_F : Int := 70
def GLFW_KEY_Q : Int := 81
def GLFW_KEY_R : Int := 82
def GLFW_KEY_S : Int := 83
def GLFW_KEY_W : Int := 87
def GLFW_KEY_RIGHT : Int := 262
def GLFW_KEY_LEFT : Int := 263
def GLFW_KEY_DOWN : Int := 264
def GLFW_KEY_UP : Int := 265

/-! ## The driver state -/

/-- The `Material` record of one rendered object. -/
structure Material where
  emission : Vec3
  Ka : Vec3
  Kd : Vec3
  Ks : ℚ
  shininessFactor : ℚ
deriving DecidableEq, Repr

/-- The light source member. -/
structure LightSource where
  position : Vec3
  rgbIntensity : Vec3
deriving DecidableEq, Repr

/-- One mesh's slice of the shared vertex buffer. -/
structure BatchInfo where
  startIndex : Nat
  numIndices : Nat
deriving DecidableEq, Repr

/-- What the driver reads from its `MeshConsolidator` after the mesh files are
loaded (the loader itself is a collaborator outside these sources). -/
structure MeshConsolidator where
  batchInfo : List BatchInfo
  numVertexBytes : Nat
  numNormalBytes : Nat
deriving DecidableEq, Repr

/-- The data members of `CameraExample` together with the function-local static
`fieldOfViewY` of `mouseScroll`.  The members `camera`, `shaderProgram` and
`meshConsolidator` are collaborators: they appear through the calls issued on
them, and `normalMatrix`, a copy of a camera matrix, through the uniform it is
sent as. -/
structure CameraExample where
  vao : Nat
  vbo_vertices : Nat
  vbo_normals : Nat
  lightSource : LightSource
  batchInfoVec : List BatchInfo
  material_grid : Material
  material_bunny : Material
  material_tyrannosaurus : Material
  material_sphere : Material
  material_light : Material
  modelMatrix_grid : Mat4
  modelMatrix_bunny : Mat4
  modelMatrix_tyrannosaurus : Mat4
  modelMatrix_sphere : Mat4
  modelMatrix_light : Mat4
  fieldOfViewY : Int
deriving DecidableEq, Repr

/-- The object names that are live on the OpenGL device.  Vertex array objects
and buffer objects have separate name spaces. -/
structure GlContext where
  vertexArrays : List Nat
  buffers : List Nat
deriving DecidableEq, Repr

/-- The whole system: the driver object, the device, and the calls issued so far. -/
structure Sys where
  app : CameraExample
  gl : GlContext
  trace : List Call
deriving DecidableEq, Repr

/-- Append calls to the trace. -/
def Sys.emit (s : Sys) (cs : List Call) : Sys := { s with trace := s.trace ++ cs }

/-- The calls issued between the state `before` and the later state `after`. -/
def issued (before after : Sys) : List Call := after.trace.drop before.trace.length

/-- The camera calls among a list of calls, in order. -/
def cameraCalls : List Call → List CameraCall
  | [] => []
  | Call.camera c :: cs => c :: cameraCalls cs
  | _ :: cs => cameraCalls cs

/-- The constructor `CameraExample::CameraExample()`: the three handles are `0`
and the light source is set.  The members the constructor leaves to their own
default construction are taken from `members`; the static `fieldOfViewY` starts
at `45.0f`. -/
def CameraExample.construct (members : CameraExample) : CameraExample :=
  { members with
    vao := 0
    vbo_vertices := 0
    vbo_normals := 0
    lightSource := { position := ⟨-2, 3, 2⟩, rgbIntensity := ⟨9/10, 9/10, 9/10⟩ }
    fieldOfViewY := 45 }

/-! ## Input handling -/

/-- The member function `CameraExample::mouseScroll(xOffSet, yOffSet)`.  A NaN offset
fails both comparisons, as `0` does. -/
def mouseScroll (s : Sys) (_xOffSet yOffSet : ℚ) : Sys :=
  let delta : Int := 5
  let fieldOfViewY : Int :=
    if yOffSet < 0 then roundF32 (s.app.fieldOfViewY + delta)
    else if yOffSet > 0 then roundF32 (s.app.fieldOfViewY - delta)
    else s.app.fieldOfViewY
  { s with app := { s.app with fieldOfViewY := fieldOfViewY } }.emit
    [Call.cout fieldOfViewY, Call.camera (CameraCall.setFieldOfViewY fieldOfViewY)]

/-- The member function `CameraExample::keyInput(key, scancode, action, mods)`.
The call of the base class `GlfwOpenGlWindow::keyInput` is recorded as
`Call.baseKeyInput`.  `degreesToRadians` is `MathUtils::degreesToRadians`, whose
definition is outside these sources. -/
def keyInput (degreesToRadians : ℚ → ℚ) (s : Sys) (key scancode action mods : Int) : Sys :=
  let s := s.emit [Call.baseKeyInput key scancode action mods]
  let xDelta : ℚ := 1/2
  let yDelta : ℚ := 1/5
  let zDelta : ℚ := 1/2
  let angleDelta : ℚ := 2
  if action = GLFW_PRESS ∨ action = GLFW_REPEAT then
    if key = GLFW_KEY_A then
      s.emit [Call.camera (CameraCall.translateRelative xDelta 0 0)]
    else if key = GLFW_KEY_D then
      s.emit [Call.camera (CameraCall.translateRelative (-1 * xDelta) 0 0)]
    else if key = GLFW_KEY_W then
      s.emit [Call.camera (CameraCall.translateRelative 0 yDelta 0)]
    else if key = GLFW_KEY_S then
      s.emit [Call.camera (CameraCall.translateRelative 0 (-1 * yDelta) 0)]
    else if key = GLFW_KEY_R then
      s.emit [Call.camera (CameraCall.translateRelative 0 0 zDelta)]
    else if key = GLFW_KEY_F then
      s.emit [Call.camera (CameraCall.translateRelative 0 0 (-1 * zDelta))]
    else if key = GLFW_KEY_Q then
      s.emit [Call.camera (CameraCall.yaw (degreesToRadians angleDelta))]
    else if key = GLFW_KEY_E then
      s.emit [Call.camera (CameraCall.yaw (degreesToRadians (-1 * angleDelta)))]
    else if key = GLFW_KEY_UP then
      s.emit [Call.camera (CameraCall.pitch (degreesToRadians (-1 * angleDelta)))]
    else if key = GLFW_KEY_DOWN then
      s.emit [Call.camera (CameraCall.pitch (degreesToRadians angleDelta))]
    else if key = GLFW_KEY_LEFT then
      s.emit [Call.camera (CameraCall.roll (degreesToRadians angleDelta))]
    else if key = GLFW_KEY_RIGHT then
      s.emit [Call.camera (CameraCall.roll (degreesToRadians (-1 * angleDelta)))]
    else s
  else s

/-! ## Drawing -/

/-- The bounds-checked access `batchInfoVec.at(i)`: the element, or the
exception `std::out_of_range` leaving the function with the state as it is. -/
def batchInfoVecAt (s : Sys) (i : Nat) : Except Sys BatchInfo :=
  match s.app.batchInfoVec[i]? with
  | some b => Except.ok b
  | none => Except.error s

/-- The member function `CameraExample::drawGrid()`. -/
def drawGrid (s : Sys) : Except Sys Sys := do
  let s : Sys := { s with app := { s.app with material_grid :=
    { emission := Vec3.splat 0, Ka := ⟨1, 1, 1⟩, Kd := ⟨1/5, 1/5, 1/5⟩,
      Ks := 3/10, shininessFactor := 10 } } }
  let s := s.emit
    [Call.setUniform "material.emission" (UniformValue.vec3 s.app.material_grid.emission),
     Call.setUniform "material.Ka" (UniformValue.vec3 s.app.material_grid.Ka),
     Call.setUniform "material.Kd" (UniformValue.vec3 s.app.material_grid.Kd),
     Call.setUniform "material.Ks" (UniformValue.float s.app.material_grid.Ks),
     Call.setUniform "material.shininessFactor"
       (UniformValue.float s.app.material_grid.shininessFactor)]
  let s := s.emit [Call.setUniform "ModelMatrix" (UniformValue.mat4 s.app.modelMatrix_grid)]
  let s := s.emit [Call.enable]
  let first ← batchInfoVecAt s 0
  let count ← batchInfoVecAt s 0
  let s := s.emit [Call.glDrawArrays GL_TRIANGLES first.startIndex count.numIndices]
  pure (s.emit [Call.disable])

/-- The member function `CameraExample::drawBunny()`. -/
def drawBunny (s : Sys) : Except Sys Sys := do
  let s : Sys := { s with app := { s.app with material_bunny :=
    { emission := Vec3.splat 0, Ka := ⟨1, 1, 1⟩, Kd := ⟨1/10, 3/10, 8/10⟩,
      Ks := 3/10, shininessFactor := 50 } } }
  let s := s.emit
    [Call.setUniform "material.emission" (UniformValue.vec3 s.app.material_bunny.emission),
     Call.setUniform "material.Ka" (UniformValue.vec3 s.app.material_bunny.Ka),
     Call.setUniform "material.Kd" (UniformValue.vec3 s.app.material_bunny.Kd),
     Call.setUniform "material.Ks" (UniformValue.float s.app.material_bunny.Ks),
     Call.setUniform "material.shininessFactor"
       (UniformValue.float s.app.material_bunny.shininessFactor)]
  let s := s.emit [Call.setUniform "ModelMatrix" (UniformValue.mat4 s.app.modelMatrix_bunny)]
  let s := s.emit [Call.enable]
  let first ← batchInfoVecAt s 1
  let count ← batchInfoVecAt s 1
  let s := s.emit [Call.glDrawArrays GL_TRIANGLES first.startIndex count.numIndices]
  pure (s.emit [Call.disable])

/-- The member function `CameraExample::drawTyrannosaurus()`. -/
def drawTyrannosaurus (s : Sys) : Except Sys Sys := do
  let s : Sys := { s with app := { s.app with material_tyrannosaurus :=
    { emission := Vec3.splat 0, Ka := ⟨1, 1, 1⟩, Kd := ⟨6/10, 1/10, 5/100⟩,
      Ks := 3/10, shininessFactor := 50 } } }
  let s := s.emit
    [Call.setUniform "material.emission"
       (UniformValue.vec3 s.app.material_tyrannosaurus.emission),
     Call.setUniform "material.Ka" (UniformValue.vec3 s.app.material_tyrannosaurus.Ka),
     Call.setUniform "material.Kd" (UniformValue.vec3 s.app.material_tyrannosaurus.Kd),
     Call.setUniform "material.Ks" (UniformValue.float s.app.material_tyrannosaurus.Ks),
     Call.setUniform "material.shininessFactor"
       (UniformValue.float s.app.material_tyrannosaurus.shininessFactor)]
  let s := s.emit
    [Call.setUniform "ModelMatrix" (UniformValue.mat4 s.app.modelMatrix_tyrannosaurus)]
  let s := s.emit [Call.enable]
  let first ← batchInfoVecAt s 2
  let count ← batchInfoVecAt s 2
  let s := s.emit [Call.glDrawArrays GL_TRIANGLES first.startIndex count.numIndices]
  pure (s.emit [Call.disable])

/-- The member function `CameraExample::drawSphere()`. -/
def drawSphere (s : Sys) : Except Sys Sys := do
  let s : Sys := { s with app := { s.app with material_sphere :=
    { emission := Vec3.splat 0, Ka := ⟨1, 1, 1⟩, Kd := ⟨1/10, 8/10, 5/100⟩,
      Ks := 3/10, shininessFactor := 50 } } }
  let s := s.emit
    [Call.setUniform "material.emission" (UniformValue.vec3 s.app.material_sphere.emission),
     Call.setUniform "material.Ka" (UniformValue.vec3 s.app.material_sphere.Ka),
     Call.setUniform "material.Kd" (UniformValue.vec3 s.app.material_sphere.Kd),
     Call.setUniform "material.Ks" (UniformValue.float s.app.material_sphere.Ks),
     Call.setUniform "material.shininessFactor"
       (UniformValue.float s.app.material_sphere.shininessFactor)]
  let s := s.emit [Call.setUniform "ModelMatrix" (UniformValue.mat4 s.app.modelMatrix_sphere)]
  let s := s.emit [Call.enable]
  let first ← batchInfoVecAt s 3
  let count ← batchInfoVecAt s 3
  let s := s.emit [Call.glDrawArrays GL_TRIANGLES first.startIndex count.numIndices]
  pure (s.emit [Call.disable])

/-- The member function `CameraExample::drawLight()`. -/
def drawLight (s : Sys) : Except Sys Sys := do
  let s : Sys := { s with app := { s.app with material_light :=
    { emission := ⟨1, 1, 1⟩, Ka := ⟨1, 1, 1⟩, Kd := ⟨1/10, 3/10, 8/10⟩,
      Ks := 3/10, shininessFactor := 50 } } }
  let s := s.emit
    [Call.setUniform "material.emission" (UniformValue.vec3 s.app.material_light.emission),
     Call.setUniform "material.Ka" (UniformValue.vec3 s.app.material_light.Ka),
     Call.setUniform "material.Kd" (UniformValue.vec3 s.app.material_light.Kd),
     Call.setUniform "material.Ks" (UniformValue.float s.app.material_light.Ks),
     Call.setUniform "material.shininessFactor"
       (UniformValue.float s.app.material_light.shininessFactor)]
  let s : Sys := { s with app := { s.app with modelMatrix_light := Mat4.identity } }
  let translated := translate s.app.modelMatrix_light s.app.lightSource.position
  let s : Sys := { s with app := { s.app with modelMatrix_light := translated } }
  let scaled := scale3 s.app.modelMatrix_light (1/5) (1/5) (1/5)
  let s : Sys := { s with app := { s.app with modelMatrix_light := scaled } }
  let s := s.emit [Call.setUniform "ModelMatrix" (UniformValue.mat4 s.app.modelMatrix_light)]
  let s := s.emit [Call.enable]
  let first ← batchInfoVecAt s 4
  let count ← batchInfoVecAt s 4
  let s := s.emit [Call.glDrawArrays GL_TRIANGLES first.startIndex count.numIndices]
  pure (s.emit [Call.disable])

/-- The member function `CameraExample::draw()`. -/
def draw (s : Sys) : Except Sys Sys := do
  let s ← drawGrid s
  let s ← drawBunny s
  let s ← drawTyrannosaurus s
  let s ← drawSphere s
  let s ← drawLight s
  pure (s.emit [Call.checkGLErrors])

/-! ## Set-up, per-frame logic and shutdown -/

/-- A name that is not in use: OpenGL hands out previously unused names, here
the successor of the largest name in use (so never `0`). -/
def freshName (used : List Nat) : Nat := used.foldr max 0 + 1

/-- The device call `glGenVertexArrays(1, &name)`: a fresh vertex array name becomes live. -/
def glGenVertexArrays (s : Sys) : Nat × Sys :=
  let name := freshName s.gl.vertexArrays
  (name, { s with gl := { s.gl with vertexArrays := name :: s.gl.vertexArrays },
                  trace := s.trace ++ [Call.glGenVertexArrays name] })

/-- The device call `glGenBuffers(1, &name)`: a fresh buffer name becomes live. -/
def glGenBuffers (s : Sys) : Nat × Sys :=
  let name := freshName s.gl.buffers
  (name, { s with gl := { s.gl with buffers := name :: s.gl.buffers },
                  trace := s.trace ++ [Call.glGenBuffers name] })

/-- The device call `glDeleteBuffers(1, &name)`: the buffer of that name is
deleted; `0` and names that are not live buffers are silently ignored. -/
def glDeleteBuffers (s : Sys) (name : Nat) : Sys :=
  { s with gl := { s.gl with buffers := s.gl.buffers.filter (fun b => b ≠ name) },
           trace := s.trace ++ [Call.glDeleteBuffers name] }

/-- The device call `glDeleteVertexArrays(1, &name)`, the release that matches
`glGenVertexArrays`. -/
def glDeleteVertexArrays (s : Sys) (name : Nat) : Sys :=
  { s with gl := { s.gl with vertexArrays := s.gl.vertexArrays.filter (fun b => b ≠ name) },
           trace := s.trace ++ [Call.glDeleteVertexArrays name] }

/-- The member function `CameraExample::setupShaders()`.  `getAttribLocation` is
the answer of the linked shader program. -/
def setupShaders (getAttribLocation : String → Int) (s : Sys) : Sys :=
  let s := s.emit [Call.loadFromFile "../data/shaders/PerFragLighting_withWorldLightPos.vert"
                     "../data/shaders/PerFragLighting_withWorldLightPos.frag"]
  let s := s.emit [Call.setUniform "ambientIntensity" (UniformValue.vec3 ⟨1/10, 1/10, 1/10⟩)]
  let s := s.emit [Call.setUniform "lightSource.rgbIntensity"
                     (UniformValue.vec3 s.app.lightSource.rgbIntensity)]
  let (vao, s) := glGenVertexArrays s
  let s : Sys := { s with app := { s.app with vao := vao } }
  let s := s.emit [Call.glBindVertexArray s.app.vao]
  let position_Location := getAttribLocation "vertexPosition"
  let s := s.emit [Call.glEnableVertexAttribArray position_Location]
  let normal_Location := getAttribLocation "vertexNormal"
  let s := s.emit [Call.glEnableVertexAttribArray normal_Location]
  s.emit [Call.checkGLErrors]

/-- The member function `CameraExample::setupGLBuffers()`. -/
def setupGLBuffers (getAttribLocation : String → Int) (meshConsolidator : MeshConsolidator)
    (s : Sys) : Sys :=
  let (vbo_vertices, s) := glGenBuffers s
  let s : Sys := { s with app := { s.app with vbo_vertices := vbo_vertices } }
  let s := s.emit [Call.glBindBuffer GL_ARRAY_BUFFER s.app.vbo_vertices]
  let s := s.emit [Call.glBufferData GL_ARRAY_BUFFER meshConsolidator.numVertexBytes
                     GL_STATIC_DRAW]
  let s := s.emit [Call.glVertexAttribPointer (getAttribLocation "vertexPosition")
                     3 GL_FLOAT GL_FALSE 0 0]
  let (vbo_normals, s) := glGenBuffers s
  let s : Sys := { s with app := { s.app with vbo_normals := vbo_normals } }
  let s := s.emit [Call.glBindBuffer GL_ARRAY_BUFFER s.app.vbo_normals]
  let s := s.emit [Call.glBufferData GL_ARRAY_BUFFER meshConsolidator.numNormalBytes
                     GL_STATIC_DRAW]
  let s := s.emit [Call.glVertexAttribPointer (getAttribLocation "vertexNormal")
                     3 GL_FLOAT GL_FALSE 0 0]
  let s := s.emit [Call.glBindBuffer GL_ARRAY_BUFFER 0]
  s.emit [Call.checkGLErrors]

/-- The member function `CameraExample::setupMatrices()`. -/
def setupMatrices (s : Sys) : Sys :=
  let s := s.emit [Call.camera (CameraCall.lookAt ⟨0, 1, 5⟩ ⟨0, -1, -5⟩ ⟨0, 1, 0⟩)]
  let identity := Mat4.identity
  let s : Sys := { s with app := { s.app with
    modelMatrix_grid := translate3 identity 0 (-38/10) (-10)
    modelMatrix_bunny := translate3 identity (-3) (-36/10) (-115/10)
    modelMatrix_tyrannosaurus := translate3 identity 3 (-24/10) (-98/10)
    modelMatrix_sphere := translate3 identity (-15/10) (-3) (-65/10) } }
  s.emit [Call.setUniform "ViewMatrix" UniformValue.cameraViewMatrix,
          Call.setUniform "NormalMatrix" UniformValue.cameraNormalMatrix,
          Call.setUniform "ProjectionMatrix" UniformValue.cameraProjectionMatrix]

/-- The member function `CameraExample::init()`.  `loadMeshes` stands for the
construction of the `MeshConsolidator` from the mesh files. -/
def init (loadMeshes : List String → MeshConsolidator) (getAttribLocation : String → Int)
    (s : Sys) : Sys :=
  let meshConsolidator := loadMeshes
    ["../data/meshes/grid.obj", "../data/meshes/bunny_smooth.obj",
     "../data/meshes/tyrannosaurus_smooth.obj", "../data/meshes/sphere_smooth.obj",
     "../data/meshes/cube.obj"]
  let s : Sys := { s with app := { s.app with batchInfoVec := meshConsolidator.batchInfo } }
  let s := setupShaders getAttribLocation s
  let s := setupGLBuffers getAttribLocation meshConsolidator s
  let s := setupMatrices s
  s.emit [Call.glClearColor (3/10) (3/10) (4/10) 1]

/-- The member function `CameraExample::updateMatrices()`. -/
def updateMatrices (s : Sys) : Sys :=
  s.emit [Call.setUniform "NormalMatrix" UniformValue.cameraNormalMatrix,
          Call.setUniform "ProjectionMatrix" UniformValue.cameraProjectionMatrix,
          Call.setUniform "ViewMatrix" UniformValue.cameraViewMatrix]

/-- The member function `CameraExample::updateUniformData()`. -/
def updateUniformData (s : Sys) : Sys :=
  updateMatrices
    (s.emit [Call.setUniform "lightSource.position" (UniformValue.vec3 s.app.lightSource.position)])

/-- The member function `CameraExample::logic()`. -/
def logic (s : Sys) : Sys := updateUniformData s

/-- The member function `CameraExample::cleanup()`. -/
def cleanup (s : Sys) : Sys :=
  let s := s.emit [Call.glBindVertexArray 0]
  let s := glDeleteBuffers s s.app.vbo_normals
  let s := glDeleteBuffers s s.app.vbo_vertices
  glDeleteBuffers s s.app.vao

/-! ## Vocabulary of the statements about `draw` -/

/-- The five rendered objects. -/
inductive SceneObject where
  | grid
  | bunny
  | tyrannosaurus
  | sphere
  | light
deriving DecidableEq, Repr

/-- The five objects in the order the specification gives for a frame. -/
def sceneObjects : List SceneObject :=
  [SceneObject.grid, SceneObject.bunny, SceneObject.tyrannosaurus, SceneObject.sphere,
   SceneObject.light]

/-- The material member that belongs to an object. -/
def SceneObject.material (a : CameraExample) : SceneObject → Material
  | SceneObject.grid => a.material_grid
  | SceneObject.bunny => a.material_bunny
  | SceneObject.tyrannosaurus => a.material_tyrannosaurus
  | SceneObject.sphere => a.material_sphere
  | SceneObject.light => a.material_light

/-- The model matrix member that belongs to an object. -/
def SceneObject.modelMatrix (a : CameraExample) : SceneObject → Mat4
  | SceneObject.grid => a.modelMatrix_grid
  | SceneObject.bunny => a.modelMatrix_bunny
  | SceneObject.tyrannosaurus => a.modelMatrix_tyrannosaurus
  | SceneObject.sphere => a.modelMatrix_sphere
  | SceneObject.light => a.modelMatrix_light

/-- The six uniform settings of one object: its five material uniforms, then `ModelMatrix`. -/
def uniformCalls (m : Material) (modelMatrix : Mat4) : List Call :=
  [Call.setUniform "material.emission" (UniformValue.vec3 m.emission),
   Call.setUniform "material.Ka" (UniformValue.vec3 m.Ka),
   Call.setUniform "material.Kd" (UniformValue.vec3 m.Kd),
   Call.setUniform "material.Ks" (UniformValue.float m.Ks),
   Call.setUniform "material.shininessFactor" (UniformValue.float m.shininessFactor),
   Call.setUniform "ModelMatrix" (UniformValue.mat4 modelMatrix)]

/-- The complete command sequence of one object drawn over the batch `b`. -/
def objectCalls (m : Material) (modelMatrix : Mat4) (b : BatchInfo) : List Call :=
  uniformCalls m modelMatrix ++
    [Call.enable, Call.glDrawArrays GL_TRIANGLES b.startIndex b.numIndices, Call.disable]

/-- The command sequences of the given objects, paired in order with the given
batches, with the materials and model matrices of the driver state `a`. -/
def objectBlocks (a : CameraExample) : List SceneObject → List BatchInfo → List Call
  | o :: os, b :: bs => objectCalls (o.material a) (o.modelMatrix a) b ++ objectBlocks a os bs
  | _, _ => []

/-- The `glDrawArrays` calls of a trace, each as `(mode, first, count)`. -/
def drawCalls : List Call → List (Nat × Nat × Nat)
  | [] => []
  | Call.glDrawArrays mode first count :: cs => (mode, first, count) :: drawCalls cs
  | _ :: cs => drawCalls cs

/-- The triangle draw over exactly the range of the batch `b`. -/
def trianglesOver (b : BatchInfo) : Nat × Nat × Nat := (GL_TRIANGLES, b.startIndex, b.numIndices)

/-- Scan a trace for the shader bracket discipline.  The flag tells whether the
shader is enabled.  The scan fails on an `enable` while enabled (nesting), on a
`disable` while disabled, on a draw while disabled, and on a uniform setting
while enabled; otherwise it returns the final flag. -/
def bracketScan : Bool → List Call → Option Bool
  | e, [] => some e
  | false, Call.enable :: cs => bracketScan true cs
  | true, Call.enable :: _ => none
  | true, Call.disable :: cs => bracketScan false cs
  | false, Call.disable :: _ => none
  | true, Call.glDrawArrays _ _ _ :: cs => bracketScan true cs
  | false, Call.glDrawArrays _ _ _ :: _ => none
  | false, Call.setUniform _ _ :: cs => bracketScan false cs
  | true, Call.setUniform _ _ :: _ => none
  | e, _ :: cs => bracketScan e cs

/-- The material constants written by the five draw functions. -/
def SceneObject.materialConstant : SceneObject → Material
  | SceneObject.grid =>
      { emission := ⟨0, 0, 0⟩, Ka := ⟨1, 1, 1⟩, Kd := ⟨1/5, 1/5, 1/5⟩, Ks := 3/10,
        shininessFactor := 10 }
  | SceneObject.bunny =>
      { emission := ⟨0, 0, 0⟩, Ka := ⟨1, 1, 1⟩, Kd := ⟨1/10, 3/10, 8/10⟩, Ks := 3/10,
        shininessFactor := 50 }
  | SceneObject.tyrannosaurus =>
      { emission := ⟨0, 0, 0⟩, Ka := ⟨1, 1, 1⟩, Kd := ⟨6/10, 1/10, 5/100⟩, Ks := 3/10,
        shininessFactor := 50 }
  | SceneObject.sphere =>
      { emission := ⟨0, 0, 0⟩, Ka := ⟨1, 1, 1⟩, Kd := ⟨1/10, 8/10, 5/100⟩, Ks := 3/10,
        shininessFactor := 50 }
  | SceneObject.light =>
      { emission := ⟨1, 1, 1⟩, Ka := ⟨1, 1, 1⟩, Kd := ⟨1/10, 3/10, 8/10⟩, Ks := 3/10,
        shininessFactor := 50 }

/-! ## Vocabulary of the statements about input -/

/-- Deliver a sequence of scroll events `(xOffSet, yOffSet)`, first to last. -/
def scrollAll (s : Sys) : List (ℚ × ℚ) → Sys
  | [] => s
  | e :: es => scrollAll (mouseScroll s e.1 e.2) es

/-- The number of forward events (positive y offset) of a sequence. -/
def forwardCount (es : List (ℚ × ℚ)) : Nat := es.countP (fun e => decide (0 < e.2))

/-- The number of backward events (negative y offset) of a sequence. -/
def backwardCount (es : List (ℚ × ℚ)) : Nat := es.countP (fun e => decide (e.2 < 0))

/-- The value passed to `camera.setFieldOfViewY` by the last such call of a trace. -/
def lastFieldOfViewY (cs : List Call) : Option Int :=
  cs.foldl
    (fun acc c =>
      match c with
      | Call.camera (CameraCall.setFieldOfViewY f) => some f
      | _ => acc)
    none

/-- Members that the constructor leaves to default construction, all zero here. -/
def blankMembers : CameraExample :=
  { vao := 0, vbo_vertices := 0, vbo_normals := 0
    lightSource := ⟨⟨0, 0, 0⟩, ⟨0, 0, 0⟩⟩
    batchInfoVec := []
    material_grid := ⟨⟨0, 0, 0⟩, ⟨0, 0, 0⟩, ⟨0, 0, 0⟩, 0, 0⟩
    material_bunny := ⟨⟨0, 0, 0⟩, ⟨0, 0, 0⟩, ⟨0, 0, 0⟩, 0, 0⟩
    material_tyrannosaurus := ⟨⟨0, 0, 0⟩, ⟨0, 0, 0⟩, ⟨0, 0, 0⟩, 0, 0⟩
    material_sphere := ⟨⟨0, 0, 0⟩, ⟨0, 0, 0⟩, ⟨0, 0, 0⟩, 0, 0⟩
    material_light := ⟨⟨0, 0, 0⟩, ⟨0, 0, 0⟩, ⟨0, 0, 0⟩, 0, 0⟩
    modelMatrix_grid := Mat4.identity
    modelMatrix_bunny := Mat4.identity
    modelMatrix_tyrannosaurus := Mat4.identity
    modelMatrix_sphere := Mat4.identity
    modelMatrix_light := Mat4.identity
    fieldOfViewY := 0 }

/-- A freshly constructed driver on a device without objects, nothing issued yet. -/
def startSys : Sys := ⟨CameraExample.construct blankMembers, ⟨[], []⟩, []⟩

/-- The key-to-command table of the specification, with `rad` the conversion
from degrees to radians. -/
def keyTable (rad : ℚ → ℚ) : List (Int × CameraCall) :=
  [(GLFW_KEY_A, CameraCall.translateRelative (1/2) 0 0),
   (GLFW_KEY_D, CameraCall.translateRelative (-(1/2)) 0 0),
   (GLFW_KEY_W, CameraCall.translateRelative 0 (1/5) 0),
   (GLFW_KEY_S, CameraCall.translateRelative 0 (-(1/5)) 0),
   (GLFW_KEY_R, CameraCall.translateRelative 0 0 (1/2)),
   (GLFW_KEY_F, CameraCall.translateRelative 0 0 (-(1/2))),
   (GLFW_KEY_Q, CameraCall.yaw (rad 2)),
   (GLFW_KEY_E, CameraCall.yaw (rad (-2))),
   (GLFW_KEY_UP, CameraCall.pitch (rad (-2))),
   (GLFW_KEY_DOWN, CameraCall.pitch (rad 2)),
   (GLFW_KEY_LEFT, CameraCall.roll (rad 2)),
   (GLFW_KEY_RIGHT, CameraCall.roll (rad (-2)))]

/-- The command the table gives for a key, if any. -/
def keyCommand (rad : ℚ → ℚ) (key : Int) : Option CameraCall :=
  ((keyTable rad).find? (fun p => decide (p.1 = key))).map Prod.snd

/-- The pairs of opposite keys: yaw, pitch, roll, and the three translation axes. -/
def oppositeKeys : List (Int × Int) :=
  [(GLFW_KEY_Q, GLFW_KEY_E), (GLFW_KEY_DOWN, GLFW_KEY_UP), (GLFW_KEY_LEFT, GLFW_KEY_RIGHT),
   (GLFW_KEY_A, GLFW_KEY_D), (GLFW_KEY_W, GLFW_KEY_S), (GLFW_KEY_R, GLFW_KEY_F)]

/-- The same camera operation with every argument negated (for the operations
that take a displacement or an angle). -/
def CameraCall.negated : CameraCall → CameraCall
  | CameraCall.translateRelative x y z => CameraCall.translateRelative (-x) (-y) (-z)
  | CameraCall.yaw a => CameraCall.yaw (-a)
  | CameraCall.pitch a => CameraCall.pitch (-a)
  | CameraCall.roll a => CameraCall.roll (-a)
  | c => c

/-- The operations of a camera on its state `Cam` (the `Camera` class is a
collaborator outside these sources). -/
structure CameraOps (Cam : Type) where
  lookAt : Vec3 → Vec3 → Vec3 → Cam → Cam
  translateRelative : ℚ → ℚ → ℚ → Cam → Cam
  yaw : ℚ → Cam → Cam
  pitch : ℚ → Cam → Cam
  roll : ℚ → Cam → Cam
  setFieldOfViewY : Int → Cam → Cam
  getViewMatrix : Cam → Mat4

/-- Perform one recorded camera call. -/
def CameraOps.perform {Cam : Type} (ops : CameraOps Cam) : CameraCall → Cam → Cam
  | CameraCall.lookAt eye center up => ops.lookAt eye center up
  | CameraCall.translateRelative x y z => ops.translateRelative x y z
  | CameraCall.yaw a => ops.yaw a
  | CameraCall.pitch a => ops.pitch a
  | CameraCall.roll a => ops.roll a
  | CameraCall.setFieldOfViewY f => ops.setFieldOfViewY f

/-- Perform recorded camera calls in order. -/
def CameraOps.run {Cam : Type} (ops : CameraOps Cam) (cs : List CameraCall) (cam : Cam) : Cam :=
  cs.foldl (fun c call => ops.perform call c) cam

/-- In this camera the operation of the call `c`, by any argument and then by
the opposite argument, is the identity. -/
def CameraOps.Reversible {Cam : Type} (ops : CameraOps Cam) (c : CameraCall) : Prop :=
  match c with
  | CameraCall.translateRelative _ _ _ =>
      ∀ x y z cam, ops.translateRelative (-x) (-y) (-z) (ops.translateRelative x y z cam) = cam
  | CameraCall.yaw _ => ∀ a cam, ops.yaw (-a) (ops.yaw a cam) = cam
  | CameraCall.pitch _ => ∀ a cam, ops.pitch (-a) (ops.pitch a cam) = cam
  | CameraCall.roll _ => ∀ a cam, ops.roll (-a) (ops.roll a cam) = cam
  | _ => True

/-- A camera whose state is a position and three accumulated angles. -/
structure AngleCamera where
  position : Vec3
  yawAngle : ℚ
  pitchAngle : ℚ
  rollAngle : ℚ
  fieldOfViewY : Int
deriving DecidableEq, Repr

/-- The operations of `AngleCamera`: every operation adds its argument. -/
def angleCameraOps : CameraOps AngleCamera where
  lookAt := fun eye _ _ c => { c with position := eye }
  translateRelative := fun x y z c =>
    { c with position := ⟨c.position.x + x, c.position.y + y, c.position.z + z⟩ }
  yaw := fun a c => { c with yawAngle := c.yawAngle + a }
  pitch := fun a c => { c with pitchAngle := c.pitchAngle + a }
  roll := fun a c => { c with rollAngle := c.rollAngle + a }
  setFieldOfViewY := fun f c => { c with fieldOfViewY := f }
  getViewMatrix := fun c => translate Mat4.identity c.position

/-- Modelled from the spec: `MathUtils::degreesToRadians`, whose header
MathUtils.hpp is not among the sources.  The specification has each angle step
"converted from degrees to radians", the multiplication by pi / 180; `pi` is the
value the program uses for the constant. -/
def degreesToRadians (pi : ℚ) (degrees : ℚ) : ℚ := degrees * pi / 180

/-- A degrees-to-radians conversion with a rational approximation of pi / 180. -/
def exampleRadians (x : ℚ) : ℚ := x * (31415926 / 1800000000)

/-- An example result of loading the five mesh files. -/
def exampleMeshes : MeshConsolidator :=
  ⟨[⟨0, 6⟩, ⟨6, 30⟩, ⟨36, 60⟩, ⟨96, 12⟩, ⟨108, 36⟩], 1728, 1728⟩

/-- Example attribute locations of the linked shader program. -/
def exampleAttribLocation (name : String) : Int := if name = "vertexPosition" then 0 else 1

/-- The driver after `init()` on a device without objects. -/
def sceneSys : Sys := init (fun _ => exampleMeshes) exampleAttribLocation startSys

/-- A mesh consolidator that yields only four batches. -/
def fourMeshes : MeshConsolidator := ⟨[⟨0, 6⟩, ⟨6, 30⟩, ⟨36, 60⟩, ⟨96, 12⟩], 1296, 1296⟩

/-- The driver after `init()` with only four batches. -/
def shortSys : Sys := init (fun _ => fourMeshes) exampleAttribLocation startSys

/-! ## Drawing: results -/

/-- A list with at least five entries starts with five entries. -/
theorem exists_five {α : Type} (l : List α) (h : 5 ≤ l.length) :
    ∃ b0 b1 b2 b3 b4 rest, l = b0 :: b1 :: b2 :: b3 :: b4 :: rest := by
  match l, h with
  | b0 :: b1 :: b2 :: b3 :: b4 :: rest, _ => exact ⟨b0, b1, b2, b3, b4, rest, rfl⟩

/-- The calls issued between two states, when the later trace extends the earlier. -/
theorem issued_append (s t : Sys) (cs : List Call) (h : t.trace = s.trace ++ cs) :
    issued s t = cs := by
  simp [issued, h]

/-- C7, amended.  For every driver state with at least five batches `draw()` returns, and
its command trace is exactly, for each of the five objects in turn (grid, bunny,
tyrannosaurus, sphere, light): the five material uniforms `material.emission`,
`material.Ka`, `material.Kd`, `material.Ks`, `material.shininessFactor` set from
that object's own material, `ModelMatrix` set from that object's own model
matrix, enable, one triangle draw, disable; followed by the error check.  Hence
the trace passes the bracket scan: every draw lies between an enable and its
disable, enables and disables alternate (balanced, never nested), and no
uniform is set while the shader is enabled. -/
theorem draw_trace (s : Sys) (h : 5 ≤ s.app.batchInfoVec.length) :
    ∃ s', draw s = Except.ok s' ∧
      issued s s' = objectBlocks s'.app sceneObjects s.app.batchInfoVec ++ [Call.checkGLErrors] ∧
      bracketScan false (issued s s') = some false := by
  obtain ⟨b0, b1, b2, b3, b4, rest, hb⟩ := exists_five _ h
  obtain ⟨app, gl, trace⟩ := s
  obtain ⟨vao, vv, vn, ls, biv, mg, mb, mt, ms, ml, mmg, mmb, mmt, mms, mml, fov⟩ := app
  simp only at hb
  subst hb
  simp [draw, drawGrid, drawBunny, drawTyrannosaurus, drawSphere, drawLight, batchInfoVecAt,
    Sys.emit, bind, Except.bind, pure, Except.pure, issued, objectBlocks, sceneObjects,
    objectCalls, uniformCalls, SceneObject.material, SceneObject.modelMatrix, bracketScan]

/-- C1. For every driver state whose batch list has at least five entries,
`draw()` returns after running `drawGrid`, `drawBunny`, `drawTyrannosaurus`,
`drawSphere`, `drawLight` in this order; each of them issues exactly one
`glDrawArrays`, a triangle draw whose `(first, count)` is
`(startIndex, numIndices)` of entry 0, 1, 2, 3, 4 respectively; so the whole
call issues exactly these five draws, in this order. -/
theorem draw_ranges (s : Sys) (h : 5 ≤ s.app.batchInfoVec.length) :
    ∃ s1 s2 s3 s4 s5,
      drawGrid s = Except.ok s1 ∧ drawBunny s1 = Except.ok s2 ∧
      drawTyrannosaurus s2 = Except.ok s3 ∧ drawSphere s3 = Except.ok s4 ∧
      drawLight s4 = Except.ok s5 ∧ draw s = Except.ok (s5.emit [Call.checkGLErrors]) ∧
      drawCalls (issued s s1) = [trianglesOver s.app.batchInfoVec[0]] ∧
      drawCalls (issued s1 s2) = [trianglesOver s.app.batchInfoVec[1]] ∧
      drawCalls (issued s2 s3) = [trianglesOver s.app.batchInfoVec[2]] ∧
      drawCalls (issued s3 s4) = [trianglesOver s.app.batchInfoVec[3]] ∧
      drawCalls (issued s4 s5) = [trianglesOver s.app.batchInfoVec[4]] ∧
      drawCalls (issued s (s5.emit [Call.checkGLErrors])) =
        [trianglesOver s.app.batchInfoVec[0], trianglesOver s.app.batchInfoVec[1],
         trianglesOver s.app.batchInfoVec[2], trianglesOver s.app.batchInfoVec[3],
         trianglesOver s.app.batchInfoVec[4]] := by
  obtain ⟨b0, b1, b2, b3, b4, rest, hb⟩ := exists_five _ h
  obtain ⟨app, gl, trace⟩ := s
  obtain ⟨vao, vv, vn, ls, biv, mg, mb, mt, ms, ml, mmg, mmb, mmt, mms, mml, fov⟩ := app
  simp only at hb
  subst hb
  simp [draw, drawGrid, drawBunny, drawTyrannosaurus, drawSphere, drawLight, batchInfoVecAt,
    Sys.emit, bind, Except.bind, pure, Except.pure, issued, drawCalls, trianglesOver]

/-- C8. For every driver state with at least five batches, after `draw()` the
five materials are the constants of the code and the light model matrix is
`scale(translate(identity, lightSource.position), 0.2, 0.2, 0.2)`, whatever
they were before the call; a second `draw()` leaves the driver state and the
device as the first one left them and issues the same command trace again. -/
theorem draw_idempotent (s : Sys) (h : 5 ≤ s.app.batchInfoVec.length) :
    ∃ s1 s2, draw s = Except.ok s1 ∧ draw s1 = Except.ok s2 ∧
      (∀ o : SceneObject, o.material s1.app = o.materialConstant) ∧
      s1.app.modelMatrix_light =
        scale3 (translate Mat4.identity s.app.lightSource.position) (1/5) (1/5) (1/5) ∧
      s2.app = s1.app ∧ s2.gl = s1.gl ∧ issued s1 s2 = issued s s1 := by
  obtain ⟨b0, b1, b2, b3, b4, rest, hb⟩ := exists_five _ h
  obtain ⟨app, gl, trace⟩ := s
  obtain ⟨vao, vv, vn, ls, biv, mg, mb, mt, ms, ml, mmg, mmb, mmt, mms, mml, fov⟩ := app
  simp only at hb
  subst hb
  simp [draw, drawGrid, drawBunny, drawTyrannosaurus, drawSphere, drawLight, batchInfoVecAt,
    Sys.emit, bind, Except.bind, pure, Except.pure, issued]
  intro o
  cases o <;> simp [SceneObject.material, SceneObject.materialConstant, Vec3.splat]

/-- C10. `draw()` returns normally if and only if `batchInfoVec` has at least
five entries.  With `n < 5` entries it throws at object `n`: the trace up to the
throw is the complete command sequences of objects `0 .. n-1` (so their `n`
draws have been issued, over the `n` batches), followed by the material and
`ModelMatrix` uniforms of object `n` and the enable of the shader. -/
theorem draw_completes_iff (s : Sys) :
    ((∃ s', draw s = Except.ok s') ↔ 5 ≤ s.app.batchInfoVec.length) ∧
    (s.app.batchInfoVec.length < 5 →
      ∃ e o, draw s = Except.error e ∧
        sceneObjects[s.app.batchInfoVec.length]? = some o ∧
        issued s e = objectBlocks e.app sceneObjects s.app.batchInfoVec ++
          uniformCalls (o.material e.app) (o.modelMatrix e.app) ++ [Call.enable] ∧
        drawCalls (issued s e) = s.app.batchInfoVec.map trianglesOver) := by
  obtain ⟨app, gl, trace⟩ := s
  obtain ⟨vao, vv, vn, ls, biv, mg, mb, mt, ms, ml, mmg, mmb, mmt, mms, mml, fov⟩ := app
  match biv with
  | [] =>
    simp [draw, drawGrid, drawBunny, drawTyrannosaurus, drawSphere, drawLight, batchInfoVecAt,
      Sys.emit, bind, Except.bind, pure, Except.pure, issued, objectBlocks, sceneObjects,
      objectCalls, uniformCalls, SceneObject.material, SceneObject.modelMatrix, drawCalls,
      trianglesOver]
  | [b0] =>
    simp [draw, drawGrid, drawBunny, drawTyrannosaurus, drawSphere, drawLight, batchInfoVecAt,
      Sys.emit, bind, Except.bind, pure, Except.pure, issued, objectBlocks, sceneObjects,
      objectCalls, uniformCalls, SceneObject.material, SceneObject.modelMatrix, drawCalls,
      trianglesOver]
  | [b0, b1] =>
    simp [draw, drawGrid, drawBunny, drawTyrannosaurus, drawSphere, drawLight, batchInfoVecAt,
      Sys.emit, bind, Except.bind, pure, Except.pure, issued, objectBlocks, sceneObjects,
      objectCalls, uniformCalls, SceneObject.material, SceneObject.modelMatrix, drawCalls,
      trianglesOver]
  | [b0, b1, b2] =>
    simp [draw, drawGrid, drawBunny, drawTyrannosaurus, drawSphere, drawLight, batchInfoVecAt,
      Sys.emit, bind, Except.bind, pure, Except.pure, issued, objectBlocks, sceneObjects,
      objectCalls, uniformCalls, SceneObject.material, SceneObject.modelMatrix, drawCalls,
      trianglesOver]
  | [b0, b1, b2, b3] =>
    simp [draw, drawGrid, drawBunny, drawTyrannosaurus, drawSphere, drawLight, batchInfoVecAt,
      Sys.emit, bind, Except.bind, pure, Except.pure, issued, objectBlocks, sceneObjects,
      objectCalls, uniformCalls, SceneObject.material, SceneObject.modelMatrix, drawCalls,
      trianglesOver]
  | b0 :: b1 :: b2 :: b3 :: b4 :: rest =>
    simp [draw, drawGrid, drawBunny, drawTyrannosaurus, drawSphere, drawLight, batchInfoVecAt,
      Sys.emit, bind, Except.bind, pure, Except.pure]

/-! ## binary32 rounding: results -/

/-- The binary32 spacing below `2^28`: 1, 2, 4, 8, 16 by binade. -/
theorem f32Ulp_cases (a : Nat) (h : a < 268435456) :
    (a < 16777216 ∧ f32Ulp a = 1) ∨
    (16777216 ≤ a ∧ a < 33554432 ∧ f32Ulp a = 2) ∨
    (33554432 ≤ a ∧ a < 67108864 ∧ f32Ulp a = 4) ∨
    (67108864 ≤ a ∧ a < 134217728 ∧ f32Ulp a = 8) ∨
    (134217728 ≤ a ∧ f32Ulp a = 16) := by
  have e : ∀ fuel b, f32UlpAux (fuel + 1) b = if b < 16777216 then 1 else 2 * f32UlpAux fuel (b / 2) := by
    intro fuel b
    simp [f32UlpAux]
  unfold f32Ulp
  rw [e 103, e 102, e 101, e 100, e 99]
  by_cases h1 : a < 16777216
  · left; simp [h1]
  · by_cases h2 : a < 33554432
    · right; left
      have : a / 2 < 16777216 := by omega
      simp [h1, this]; omega
    · by_cases h3 : a < 67108864
      · right; right; left
        have : ¬ a / 2 < 16777216 := by omega
        have : a / 2 / 2 < 16777216 := by omega
        simp [*]; omega
      · by_cases h4 : a < 134217728
        · right; right; right; left
          have : ¬ a / 2 < 16777216 := by omega
          have : ¬ a / 2 / 2 < 16777216 := by omega
          have : a / 2 / 2 / 2 < 16777216 := by omega
          simp [*]; omega
        · right; right; right; right
          have : ¬ a / 2 < 16777216 := by omega
          have : ¬ a / 2 / 2 < 16777216 := by omega
          have : ¬ a / 2 / 2 / 2 < 16777216 := by omega
          have : a / 2 / 2 / 2 / 2 < 16777216 := by omega
          simp [*]; omega

/-- Below `2^28` the rounded value is the nearest multiple of the spacing, and the
even multiple at a tie. -/
theorem roundF32Nat_cases (a : Nat) (h : a < 268435456) :
    (a < 16777216 ∧ roundF32Nat a = a) ∨
    (16777216 ≤ a ∧ a < 33554432 ∧ roundF32Nat a % 2 = 0 ∧
      2 * a ≤ 2 * roundF32Nat a + 2 ∧ 2 * roundF32Nat a ≤ 2 * a + 2 ∧
      (a % 2 = 1 → roundF32Nat a % 4 = 0)) ∨
    (33554432 ≤ a ∧ a < 67108864 ∧ roundF32Nat a % 4 = 0 ∧
      2 * a ≤ 2 * roundF32Nat a + 4 ∧ 2 * roundF32Nat a ≤ 2 * a + 4 ∧
      (a % 4 = 2 → roundF32Nat a % 8 = 0)) ∨
    (67108864 ≤ a ∧ a < 134217728 ∧ roundF32Nat a % 8 = 0 ∧
      2 * a ≤ 2 * roundF32Nat a + 8 ∧ 2 * roundF32Nat a ≤ 2 * a + 8 ∧
      (a % 8 = 4 → roundF32Nat a % 16 = 0)) ∨
    (134217728 ≤ a ∧ roundF32Nat a % 16 = 0 ∧
      2 * a ≤ 2 * roundF32Nat a + 16 ∧ 2 * roundF32Nat a ≤ 2 * a + 16 ∧
      (a % 16 = 8 → roundF32Nat a % 32 = 0)) := by
  rcases f32Ulp_cases a h with ⟨h1, hu⟩ | ⟨h1, h2, hu⟩ | ⟨h1, h2, hu⟩ | ⟨h1, h2, hu⟩ | ⟨h1, hu⟩
  · left
    refine ⟨h1, ?_⟩
    simp only [roundF32Nat, hu]
    split_ifs <;> omega
  · right; left
    refine ⟨h1, h2, ?_⟩
    simp only [roundF32Nat, hu]
    split_ifs <;> omega
  · right; right; left
    refine ⟨h1, h2, ?_⟩
    simp only [roundF32Nat, hu]
    split_ifs <;> omega
  · right; right; right; left
    refine ⟨h1, h2, ?_⟩
    simp only [roundF32Nat, hu]
    split_ifs <;> omega
  · right; right; right; right
    refine ⟨h1, ?_⟩
    simp only [roundF32Nat, hu]
    split_ifs <;> omega

/-- Every integer of magnitude at most `2^24` is a binary32 value. -/
theorem roundF32_exact (z : Int) (h1 : -16777216 ≤ z) (h2 : z ≤ 16777216) : roundF32 z = z := by
  unfold roundF32
  split_ifs with hz
  · rcases roundF32Nat_cases z.toNat (by omega) with h | h | h | h | h <;> omega
  · rcases roundF32Nat_cases (-z).toNat (by omega) with h | h | h | h | h <;> omega

/-- Adding 5 in binary32 stays within `-2^27 .. 2^27`, and strictly increases a
value in `0 .. 2^27 - 1`. -/
theorem roundF32_add_five (v : Int) (h1 : -134217728 ≤ v) (h2 : v ≤ 134217728) :
    -134217728 ≤ roundF32 (v + 5) ∧ roundF32 (v + 5) ≤ 134217728 ∧
      (0 ≤ v → v < 134217728 → v < roundF32 (v + 5)) := by
  unfold roundF32
  split_ifs with hz
  · rcases roundF32Nat_cases (v + 5).toNat (by omega) with h | h | h | h | h <;> omega
  · rcases roundF32Nat_cases (-(v + 5)).toNat (by omega) with h | h | h | h | h <;> omega

/-- Subtracting 5 in binary32 stays within `-2^27 .. 2^27`, and keeps a value at
most `-5` at most `-5`. -/
theorem roundF32_sub_five (v : Int) (h1 : -134217728 ≤ v) (h2 : v ≤ 134217728) :
    -134217728 ≤ roundF32 (v - 5) ∧ roundF32 (v - 5) ≤ 134217728 ∧
      (v ≤ -5 → roundF32 (v - 5) ≤ -5) := by
  unfold roundF32
  split_ifs with hz
  · rcases roundF32Nat_cases (v - 5).toNat (by omega) with h | h | h | h | h <;> omega
  · rcases roundF32Nat_cases (-(v - 5)).toNat (by omega) with h | h | h | h | h <;> omega

/-! ## Scrolling: results -/

/-- Delivering a concatenation of event sequences. -/
theorem scrollAll_append (s : Sys) (es fs : List (ℚ × ℚ)) :
    scrollAll s (es ++ fs) = scrollAll (scrollAll s es) fs := by
  induction es generalizing s with
  | nil => rfl
  | cons e es ih => simp [scrollAll, ih]

/-- One scroll event prints the new accumulator and passes it to the camera. -/
theorem mouseScroll_trace (s : Sys) (x y : ℚ) :
    (mouseScroll s x y).trace = s.trace ++
      [Call.cout (mouseScroll s x y).app.fieldOfViewY,
       Call.camera (CameraCall.setFieldOfViewY (mouseScroll s x y).app.fieldOfViewY)] := by
  simp [mouseScroll, Sys.emit]

/-- The trace of a non-empty event sequence ends with the calls of its last event. -/
theorem scrollAll_trace (es : List (ℚ × ℚ)) (s : Sys) (hne : es ≠ []) :
    ∃ pre, (scrollAll s es).trace = s.trace ++ pre ++
      [Call.cout (scrollAll s es).app.fieldOfViewY,
       Call.camera (CameraCall.setFieldOfViewY (scrollAll s es).app.fieldOfViewY)] := by
  induction es generalizing s with
  | nil => exact absurd rfl hne
  | cons e es ih =>
    cases es with
    | nil => exact ⟨[], by simp [scrollAll, mouseScroll_trace]⟩
    | cons e2 es =>
      obtain ⟨pre, hpre⟩ := ih (mouseScroll s e.1 e.2) (by simp)
      refine ⟨[Call.cout (mouseScroll s e.1 e.2).app.fieldOfViewY,
        Call.camera (CameraCall.setFieldOfViewY (mouseScroll s e.1 e.2).app.fieldOfViewY)]
        ++ pre, ?_⟩
      rw [scrollAll, hpre, mouseScroll_trace]
      simp only [List.append_assoc]

/-- The value passed to the camera by the last event is the final accumulator. -/
theorem lastFieldOfViewY_scrollAll (es : List (ℚ × ℚ)) (s : Sys) (hne : es ≠ []) :
    lastFieldOfViewY (issued s (scrollAll s es)) = some (scrollAll s es).app.fieldOfViewY := by
  obtain ⟨pre, hpre⟩ := scrollAll_trace es s hne
  rw [issued_append s _ _ (by rw [hpre, List.append_assoc])]
  simp [lastFieldOfViewY, List.foldl_append]

/-- The accumulator after one scroll event. -/
theorem mouseScroll_step (s : Sys) (x y : ℚ) :
    (mouseScroll s x y).app.fieldOfViewY =
      if y < 0 then roundF32 (s.app.fieldOfViewY + 5)
      else if 0 < y then roundF32 (s.app.fieldOfViewY - 5)
      else s.app.fieldOfViewY := by
  simp [mouseScroll, Sys.emit]

/-- While the exact value of every initial segment stays within `-2^24 .. 2^24`, no
addition rounds and the accumulator is the exact value. -/
theorem scrollAll_exact (es : List (ℚ × ℚ)) (s : Sys) (v : Int) (hv : s.app.fieldOfViewY = v)
    (hr : ∀ k, k ≤ es.length →
      -16777216 ≤ v - 5 * (forwardCount (es.take k) : Int) + 5 * (backwardCount (es.take k) : Int) ∧
      v - 5 * (forwardCount (es.take k) : Int) + 5 * (backwardCount (es.take k) : Int) ≤ 16777216) :
    (scrollAll s es).app.fieldOfViewY =
      v - 5 * (forwardCount es : Int) + 5 * (backwardCount es : Int) := by
  induction es generalizing s v with
  | nil => simp [scrollAll, forwardCount, backwardCount, hv]
  | cons e es ih =>
    obtain ⟨x, y⟩ := e
    have h1 := hr 1 (by simp)
    simp only [List.take_succ_cons, List.take_zero, forwardCount, backwardCount,
      List.countP_cons, List.countP_nil] at h1
    have hrs : ∀ k, k ≤ es.length →
        -16777216 ≤ v - 5 * ((forwardCount (es.take k) : Int) + (if 0 < y then 1 else 0))
          + 5 * ((backwardCount (es.take k) : Int) + (if y < 0 then 1 else 0)) ∧
        v - 5 * ((forwardCount (es.take k) : Int) + (if 0 < y then 1 else 0))
          + 5 * ((backwardCount (es.take k) : Int) + (if y < 0 then 1 else 0)) ≤ 16777216 := by
      intro k hk
      have := hr (k + 1) (by simpa using hk)
      simpa [forwardCount, backwardCount, List.countP_cons] using this
    rw [scrollAll]
    rcases lt_trichotomy y 0 with hy | hy | hy
    · have hny : ¬ (0 < y) := not_lt.mpr hy.le
      simp [hy, hny] at h1
      have hstep : (mouseScroll s x y).app.fieldOfViewY = v + 5 := by
        rw [mouseScroll_step, if_pos hy, hv]
        exact roundF32_exact _ (by omega) (by omega)
      rw [ih _ (v + 5) hstep]
      · simp [forwardCount, backwardCount, List.countP_cons, hy, hny]; ring
      · intro k hk
        have := hrs k hk
        simp only [hy, hny, if_true, if_false] at this
        omega
    · subst hy
      have hstep : (mouseScroll s x 0).app.fieldOfViewY = v := by
        rw [mouseScroll_step]; simp [hv]
      rw [ih _ v hstep]
      · simp [forwardCount, backwardCount, List.countP_cons]
      · intro k hk
        have := hrs k hk
        simpa using this
    · have hny : ¬ (y < 0) := not_lt.mpr hy.le
      simp [hy, hny] at h1
      have hstep : (mouseScroll s x y).app.fieldOfViewY = v - 5 := by
        rw [mouseScroll_step, if_neg hny, if_pos hy, hv]
        exact roundF32_exact _ (by omega) (by omega)
      rw [ih _ (v - 5) hstep]
      · simp [forwardCount, backwardCount, List.countP_cons, hy, hny]; ring
      · intro k hk
        have := hrs k hk
        simp only [hy, hny, if_true, if_false] at this
        omega

/-- The counts of a sequence of forward events. -/
theorem counts_of_forward (es : List (ℚ × ℚ)) (h : ∀ e ∈ es, 0 < e.2) :
    forwardCount es = es.length ∧ backwardCount es = 0 := by
  induction es with
  | nil => simp [forwardCount, backwardCount]
  | cons e es ih =>
    have he : 0 < e.2 := h e (by simp)
    have hne : ¬ (e.2 < 0) := not_lt.mpr he.le
    obtain ⟨h1, h2⟩ := ih (fun e' he' => h e' (by simp [he']))
    simp only [forwardCount, backwardCount] at h1 h2
    simp [forwardCount, backwardCount, List.countP_cons, he, hne, h1, h2]

/-- The counts of a sequence of backward events. -/
theorem counts_of_backward (es : List (ℚ × ℚ)) (h : ∀ e ∈ es, e.2 < 0) :
    forwardCount es = 0 ∧ backwardCount es = es.length := by
  induction es with
  | nil => simp [forwardCount, backwardCount]
  | cons e es ih =>
    have he : e.2 < 0 := h e (by simp)
    have hne : ¬ (0 < e.2) := not_lt.mpr he.le
    obtain ⟨h1, h2⟩ := ih (fun e' he' => h e' (by simp [he']))
    simp only [forwardCount, backwardCount] at h1 h2
    simp [forwardCount, backwardCount, List.countP_cons, he, hne, h1, h2]

/-- No event sequence leads out of `-2^27 .. 2^27`. -/
theorem scrollAll_bounded (es : List (ℚ × ℚ)) (s : Sys)
    (h1 : -134217728 ≤ s.app.fieldOfViewY) (h2 : s.app.fieldOfViewY ≤ 134217728) :
    -134217728 ≤ (scrollAll s es).app.fieldOfViewY ∧
      (scrollAll s es).app.fieldOfViewY ≤ 134217728 := by
  induction es generalizing s with
  | nil => exact ⟨h1, h2⟩
  | cons e es ih =>
    rw [scrollAll]
    have hu := roundF32_add_five _ h1 h2
    have hd := roundF32_sub_five _ h1 h2
    apply ih
    · rw [mouseScroll_step]; split_ifs <;> omega
    · rw [mouseScroll_step]; split_ifs <;> omega

/-- Forward events keep a value at most `-5` at most `-5`. -/
theorem scrollAll_forward_negative (es : List (ℚ × ℚ)) (s : Sys) (h : ∀ e ∈ es, 0 < e.2)
    (h1 : -134217728 ≤ s.app.fieldOfViewY) (h2 : s.app.fieldOfViewY ≤ -5) :
    -134217728 ≤ (scrollAll s es).app.fieldOfViewY ∧ (scrollAll s es).app.fieldOfViewY ≤ -5 := by
  induction es generalizing s with
  | nil => exact ⟨h1, h2⟩
  | cons e es ih =>
    have he : 0 < e.2 := h e (by simp)
    have hne : ¬ (e.2 < 0) := not_lt.mpr he.le
    rw [scrollAll]
    have hd := roundF32_sub_five _ h1 (by omega)
    apply ih _ (fun e' he' => h e' (by simp [he']))
    · rw [mouseScroll_step, if_neg hne, if_pos he]; omega
    · rw [mouseScroll_step, if_neg hne, if_pos he]; omega

/-- Backward events from a value in `0 .. 2^27` eventually reach `2^27`. -/
theorem scrollAll_backward_reaches (d : Nat) (s : Sys) (h1 : 0 ≤ s.app.fieldOfViewY)
    (h2 : s.app.fieldOfViewY ≤ 134217728) (hd : 134217728 - s.app.fieldOfViewY ≤ d) :
    ∃ n, (scrollAll s (List.replicate n ((0 : ℚ), (-1 : ℚ)))).app.fieldOfViewY = 134217728 := by
  induction d generalizing s with
  | zero => exact ⟨0, by simp only [List.replicate, scrollAll]; omega⟩
  | succ d ih =>
    by_cases hs : s.app.fieldOfViewY = 134217728
    · exact ⟨0, by simpa only [List.replicate, scrollAll] using hs⟩
    · have hu := roundF32_add_five _ (by omega) h2
      have hstep : (mouseScroll s 0 (-1)).app.fieldOfViewY = roundF32 (s.app.fieldOfViewY + 5) := by
        rw [mouseScroll_step]; simp
      obtain ⟨n, hn⟩ := ih (mouseScroll s 0 (-1)) (by omega) (by omega) (by omega)
      exact ⟨n + 1, by simpa only [List.replicate, scrollAll] using hn⟩

/-- The accumulator after an initial segment of an event sequence in the exact range. -/
theorem scrollAll_initial_exact (s : Sys) (es : List (ℚ × ℚ)) (h45 : s.app.fieldOfViewY = 45)
    (hr : ∀ k, k ≤ es.length →
      -16777216 ≤ 45 - 5 * (forwardCount (es.take k) : Int) + 5 * (backwardCount (es.take k) : Int) ∧
      45 - 5 * (forwardCount (es.take k) : Int) + 5 * (backwardCount (es.take k) : Int) ≤ 16777216)
    (l post : List (ℚ × ℚ)) (hl : es = l ++ post) :
    (scrollAll s l).app.fieldOfViewY =
      45 - 5 * (forwardCount l : Int) + 5 * (backwardCount l : Int) := by
  apply scrollAll_exact l s 45 h45
  intro k hk
  have := hr k (by rw [hl, List.length_append]; omega)
  rwa [hl, List.take_append_of_le_length hk] at this

/-- C2, amended.  Start from a field of view of 45 and take any sequence of
scroll events such that, after each of its events, the exact value
`45 - 5p + 5n` (`p` forward, `n` backward events so far) lies within
`-16777216 .. 16777216` (`2^24`, the range in which binary32 holds every
integer).  Then the accumulator after the sequence, and the value passed to
`camera.setFieldOfViewY` by its last event, is `45 - 5p + 5n`; every event of
the sequence with a positive y offset decreases the accumulator by exactly 5,
every event with a negative y offset increases it by exactly 5, an event with y
offset 0 leaves it unchanged, whatever the x offset and the magnitude of the y
offset, and the event passes the new value to the camera; and a forward event
followed by a backward event restores the previous value. -/
theorem mouseScroll_fieldOfView (s : Sys) (es : List (ℚ × ℚ)) (h45 : s.app.fieldOfViewY = 45)
    (hr : ∀ k, k ≤ es.length →
      -16777216 ≤ 45 - 5 * (forwardCount (es.take k) : Int) + 5 * (backwardCount (es.take k) : Int) ∧
      45 - 5 * (forwardCount (es.take k) : Int) + 5 * (backwardCount (es.take k) : Int) ≤ 16777216) :
    (scrollAll s es).app.fieldOfViewY =
        45 - 5 * (forwardCount es : Int) + 5 * (backwardCount es : Int) ∧
    (es ≠ [] → lastFieldOfViewY (issued s (scrollAll s es)) =
        some (45 - 5 * (forwardCount es : Int) + 5 * (backwardCount es : Int))) ∧
    (∀ pre x y post, es = pre ++ (x, y) :: post →
      (0 < y → (mouseScroll (scrollAll s pre) x y).app.fieldOfViewY =
        (scrollAll s pre).app.fieldOfViewY - 5) ∧
      (y < 0 → (mouseScroll (scrollAll s pre) x y).app.fieldOfViewY =
        (scrollAll s pre).app.fieldOfViewY + 5) ∧
      (y = 0 → (mouseScroll (scrollAll s pre) x y).app.fieldOfViewY =
        (scrollAll s pre).app.fieldOfViewY) ∧
      issued (scrollAll s pre) (mouseScroll (scrollAll s pre) x y) =
        [Call.cout (mouseScroll (scrollAll s pre) x y).app.fieldOfViewY,
         Call.camera (CameraCall.setFieldOfViewY
           (mouseScroll (scrollAll s pre) x y).app.fieldOfViewY)]) ∧
    (∀ pre x1 y1 x2 y2 post, es = pre ++ (x1, y1) :: (x2, y2) :: post → 0 < y1 → y2 < 0 →
      (mouseScroll (mouseScroll (scrollAll s pre) x1 y1) x2 y2).app.fieldOfViewY =
        (scrollAll s pre).app.fieldOfViewY) := by
  have hall := scrollAll_initial_exact s es h45 hr es [] (by simp)
  refine ⟨hall, ?_, ?_, ?_⟩
  · intro hne
    rw [lastFieldOfViewY_scrollAll es s hne, hall]
  · intro pre x y post hes
    have hp := scrollAll_initial_exact s es h45 hr pre ((x, y) :: post) hes
    have hq := scrollAll_initial_exact s es h45 hr (pre ++ [(x, y)]) post (by simp [hes])
    rw [scrollAll_append] at hq
    simp only [scrollAll] at hq
    refine ⟨?_, ?_, ?_, issued_append _ _ _ (mouseScroll_trace _ _ _)⟩
    · intro hy
      have hny : ¬ (y < 0) := not_lt.mpr hy.le
      rw [hq, hp]
      simp [forwardCount, backwardCount, List.countP_append, List.countP_cons, hy, hny]
      ring
    · intro hy
      have hny : ¬ (0 < y) := not_lt.mpr hy.le
      rw [hq, hp]
      simp [forwardCount, backwardCount, List.countP_append, List.countP_cons, hy, hny]
      ring
    · intro hy
      subst hy
      rw [mouseScroll_step]
      simp
  · intro pre x1 y1 x2 y2 post hes hy1 hy2
    have hp := scrollAll_initial_exact s es h45 hr pre ((x1, y1) :: (x2, y2) :: post) hes
    have hq := scrollAll_initial_exact s es h45 hr (pre ++ [(x1, y1), (x2, y2)]) post
      (by simp [hes])
    rw [scrollAll_append] at hq
    simp only [scrollAll] at hq
    have hn1 : ¬ (y1 < 0) := not_lt.mpr hy1.le
    have hn2 : ¬ (0 < y2) := not_lt.mpr hy2.le
    rw [hq, hp]
    simp [forwardCount, backwardCount, List.countP_append, List.countP_cons, hy1, hy2, hn1, hn2]
    ring

/-- C2, witness: two forward events, one backward event and one event with y offset 0. -/
theorem mouseScroll_fieldOfView_witness :
    (scrollAll startSys [(0, 1), (3, -2), (0, 0), (1, 5/2)]).app.fieldOfViewY =
      45 - 5 * (forwardCount [(0, 1), (3, -2), (0, 0), (1, 5/2)] : Int)
        + 5 * (backwardCount [(0, 1), (3, -2), (0, 0), (1, 5/2)] : Int) :=
  (mouseScroll_fieldOfView startSys [(0, 1), (3, -2), (0, 0), (1, 5/2)] rfl
    (by
      intro k hk
      simp only [List.length_cons, List.length_nil] at hk
      interval_cases k <;> norm_num [forwardCount, backwardCount])).1

/-- The counts of a run of backward events. -/
theorem replicate_backward_counts (n : Nat) :
    forwardCount (List.replicate n ((0 : ℚ), (-1 : ℚ))) = 0 ∧
      backwardCount (List.replicate n ((0 : ℚ), (-1 : ℚ))) = n := by
  have := counts_of_backward (List.replicate n ((0 : ℚ), (-1 : ℚ)))
    (by intro e he; rw [(List.mem_replicate.mp he).2]; norm_num)
  simpa using this

/-- C2, counterexample.  After 3355436 backward events from 45 the value passed to
`camera.setFieldOfViewY` is 16777224, the binary32 neighbour of
`45 + 5 * 3355436 = 16777225`, which binary32 cannot hold. -/
theorem mouseScroll_fieldOfView_rounds :
    lastFieldOfViewY (issued startSys
        (scrollAll startSys (List.replicate 3355436 ((0 : ℚ), (-1 : ℚ))))) = some 16777224 ∧
      45 - 5 * (forwardCount (List.replicate 3355436 ((0 : ℚ), (-1 : ℚ))) : Int)
        + 5 * (backwardCount (List.replicate 3355436 ((0 : ℚ), (-1 : ℚ))) : Int) = 16777225 := by
  constructor
  · have hne : List.replicate 3355436 ((0 : ℚ), (-1 : ℚ)) ≠ [] := by
      intro h
      have := congrArg List.length h
      rw [List.length_replicate] at this
      exact absurd this (by decide)
    rw [lastFieldOfViewY_scrollAll _ _ hne]
    have h1 : (scrollAll startSys (List.replicate 3355434 ((0 : ℚ), (-1 : ℚ)))).app.fieldOfViewY
        = 16777215 := by
      rw [scrollAll_exact _ startSys 45 rfl]
      · rw [(replicate_backward_counts _).1, (replicate_backward_counts _).2]; norm_num
      · intro k hk
        rw [List.take_replicate, (replicate_backward_counts _).1, (replicate_backward_counts _).2]
        simp only [List.length_replicate] at hk
        omega
    have hsplit : List.replicate 3355436 ((0 : ℚ), (-1 : ℚ)) =
        List.replicate 3355434 ((0 : ℚ), (-1 : ℚ)) ++ [(0, -1), (0, -1)] := by
      rw [show (3355436 : Nat) = 3355434 + 2 from rfl, List.replicate_add]
      rfl
    have htwo : ∀ t : Sys, scrollAll t [((0 : ℚ), (-1 : ℚ)), ((0 : ℚ), (-1 : ℚ))] =
        mouseScroll (mouseScroll t 0 (-1)) 0 (-1) := fun _ => rfl
    rw [hsplit, scrollAll_append, htwo, mouseScroll_step, mouseScroll_step, h1]
    have e1 : roundF32 16777220 = 16777220 := by
      unfold roundF32
      rcases roundF32Nat_cases (16777220 : Int).toNat (by omega) with h | h | h | h | h <;>
        (split_ifs <;> omega)
    have e2 : roundF32 16777225 = 16777224 := by
      unfold roundF32
      rcases roundF32Nat_cases (16777225 : Int).toNat (by omega) with h | h | h | h | h <;>
        (split_ifs <;> omega)
    norm_num [e1, e2]
  · rw [(replicate_backward_counts _).1, (replicate_backward_counts _).2]; norm_num

/-- C6, amended.  From a field of view of 45 nothing keeps the value inside the
open interval (0, 180): nine forward events pass 0 to
`camera.setFieldOfViewY`, every longer run of forward events passes a negative
value, and 28 backward events pass 185.  For every bound `B` below
`134217728` (`2^27`) some run of backward events passes a value greater than
`B`; but no sequence of events ever passes a value above `134217728`, where
the binary32 sum of the accumulator and 5 is the accumulator again. -/
theorem fieldOfView_unclamped (s : Sys) (h45 : s.app.fieldOfViewY = 45) :
    (∀ es : List (ℚ × ℚ), (∀ e ∈ es, 0 < e.2) → es.length = 9 →
      lastFieldOfViewY (issued s (scrollAll s es)) = some 0) ∧
    (∀ es : List (ℚ × ℚ), (∀ e ∈ es, 0 < e.2) → 9 < es.length →
      ∃ v, lastFieldOfViewY (issued s (scrollAll s es)) = some v ∧ v < 0) ∧
    (∀ es : List (ℚ × ℚ), (∀ e ∈ es, e.2 < 0) → es.length = 28 →
      lastFieldOfViewY (issued s (scrollAll s es)) = some 185) ∧
    (∀ B : Int, B < 134217728 → ∃ n v,
      lastFieldOfViewY (issued s (scrollAll s (List.replicate n ((0 : ℚ), (-1 : ℚ))))) = some v ∧
        B < v) ∧
    (∀ (es : List (ℚ × ℚ)) (v : Int),
      lastFieldOfViewY (issued s (scrollAll s es)) = some v → v ≤ 134217728) := by
  have hforward : ∀ es : List (ℚ × ℚ), (∀ e ∈ es, 0 < e.2) → es.length ≤ 10 →
      (scrollAll s es).app.fieldOfViewY = 45 - 5 * (es.length : Int) := by
    intro es hes hlen
    rw [scrollAll_exact es s 45 h45]
    · rw [(counts_of_forward es hes).1, (counts_of_forward es hes).2]; simp
    · intro k hk
      have hk2 : ∀ e ∈ es.take k, 0 < e.2 := fun e he => hes e (List.mem_of_mem_take he)
      rw [(counts_of_forward _ hk2).1, (counts_of_forward _ hk2).2, List.length_take]
      omega
  refine ⟨?_, ?_, ?_, ?_, ?_⟩
  · intro es hes hlen
    rw [lastFieldOfViewY_scrollAll es s (by intro h; simp [h] at hlen), hforward es hes (by omega),
      hlen]
    rfl
  · intro es hes hlen
    have hne : es ≠ [] := by intro h; simp [h] at hlen
    refine ⟨_, lastFieldOfViewY_scrollAll es s hne, ?_⟩
    have hsplit : es = es.take 10 ++ es.drop 10 := (List.take_append_drop 10 es).symm
    have hten := hforward (es.take 10) (fun e he => hes e (List.mem_of_mem_take he))
      (by rw [List.length_take]; omega)
    rw [List.length_take] at hten
    rw [hsplit, scrollAll_append]
    have := scrollAll_forward_negative (es.drop 10) (scrollAll s (es.take 10))
      (fun e he => hes e (List.mem_of_mem_drop he)) (by omega) (by omega)
    omega
  · intro es hes hlen
    rw [lastFieldOfViewY_scrollAll es s (by intro h; simp [h] at hlen),
      scrollAll_exact es s 45 h45]
    · rw [(counts_of_backward es hes).1, (counts_of_backward es hes).2, hlen]; rfl
    · intro k hk
      have hk2 : ∀ e ∈ es.take k, e.2 < 0 := fun e he => hes e (List.mem_of_mem_take he)
      rw [(counts_of_backward _ hk2).1, (counts_of_backward _ hk2).2, List.length_take]
      omega
  · intro B hB
    obtain ⟨n, hn⟩ := scrollAll_backward_reaches 134217728 s (by omega) (by omega) (by omega)
    have hne : List.replicate n ((0 : ℚ), (-1 : ℚ)) ≠ [] := by
      intro h
      rw [h] at hn
      simp only [scrollAll] at hn
      omega
    exact ⟨n, _, lastFieldOfViewY_scrollAll _ s hne, by omega⟩
  · intro es v hv
    by_cases hne : es = []
    · subst hne
      simp [scrollAll, issued, lastFieldOfViewY] at hv
    · rw [lastFieldOfViewY_scrollAll es s hne] at hv
      have := scrollAll_bounded es s (by omega) (by omega)
      simp only [Option.some.injEq] at hv
      omega

/-- C6, witness: nine forward events from the start pass 0. -/
theorem fieldOfView_unclamped_witness :
    lastFieldOfViewY (issued startSys (scrollAll startSys (List.replicate 9 ((0 : ℚ), (1 : ℚ)))))
      = some 0 :=
  (fieldOfView_unclamped startSys rfl).1 (List.replicate 9 ((0 : ℚ), (1 : ℚ)))
    (by intro e he; rw [(List.mem_replicate.mp he).2]; norm_num) rfl

/-- C6, counterexample.  It is not the case that for every bound `B` some sequence
of backward events from 45 passes a value greater than `B`: the bound
`134217728` is never exceeded. -/
theorem fieldOfView_saturates :
    ¬ ∀ B : Int, ∃ es : List (ℚ × ℚ), (∀ e ∈ es, e.2 < 0) ∧
      ∃ v, lastFieldOfViewY (issued startSys (scrollAll startSys es)) = some v ∧ B < v := by
  intro h
  obtain ⟨es, _, v, hv, hB⟩ := h 134217728
  by_cases hne : es = []
  · subst hne
    simp [scrollAll, issued, lastFieldOfViewY] at hv
  · rw [lastFieldOfViewY_scrollAll es startSys hne] at hv
    have hs : startSys.app.fieldOfViewY = 45 := rfl
    have := scrollAll_bounded es startSys (by omega) (by omega)
    simp only [Option.some.injEq] at hv
    omega

/-! ## Keyboard input: results -/

/-- A key code is one of the twelve of the table, or none of them. -/
theorem key_cases (key : Int) :
    key = 65 ∨ key = 68 ∨ key = 87 ∨ key = 83 ∨ key = 82 ∨ key = 70 ∨ key = 81 ∨ key = 69 ∨
      key = 265 ∨ key = 264 ∨ key = 263 ∨ key = 262 ∨
      (key ≠ 65 ∧ key ≠ 68 ∧ key ≠ 87 ∧ key ≠ 83 ∧ key ≠ 82 ∧ key ≠ 70 ∧ key ≠ 81 ∧ key ≠ 69 ∧
        key ≠ 265 ∧ key ≠ 264 ∧ key ≠ 263 ∧ key ≠ 262) := by
  omega

/-- The calls of one key event: the base class call, then the table's command for
a press or repeat. -/
theorem keyInput_trace (rad : ℚ → ℚ) (s : Sys) (key scancode action mods : Int) :
    (keyInput rad s key scancode action mods).trace = s.trace ++
      (Call.baseKeyInput key scancode action mods ::
        if action = GLFW_PRESS ∨ action = GLFW_REPEAT then
          (keyCommand rad key).toList.map Call.camera
        else []) := by
  have hneg1 : (-1 : ℚ) * (1 / 2) = -(1 / 2) := by norm_num
  have hneg2 : (-1 : ℚ) * (1 / 5) = -(1 / 5) := by norm_num
  have hneg3 : (-1 : ℚ) * 2 = -2 := by norm_num
  by_cases ha : action = GLFW_PRESS ∨ action = GLFW_REPEAT
  · rw [if_pos ha]
    rcases key_cases key with h | h | h | h | h | h | h | h | h | h | h | h |
      ⟨k1, k2, k3, k4, k5, k6, k7, k8, k9, k10, k11, k12⟩
    all_goals try
      simp [keyInput, ha, h, hneg1, hneg2, hneg3, Sys.emit, keyCommand,
        keyTable, GLFW_KEY_A, GLFW_KEY_D, GLFW_KEY_E, GLFW_KEY_F, GLFW_KEY_Q, GLFW_KEY_R,
        GLFW_KEY_S, GLFW_KEY_W, GLFW_KEY_RIGHT, GLFW_KEY_LEFT, GLFW_KEY_DOWN, GLFW_KEY_UP]
    simp [keyInput, ha, k1, k2, k3, k4, k5, k6, k7, k8, k9, k10, k11, k12, Ne.symm k1,
      Ne.symm k2, Ne.symm k3, Ne.symm k4, Ne.symm k5, Ne.symm k6, Ne.symm k7, Ne.symm k8,
      Ne.symm k9, Ne.symm k10, Ne.symm k11, Ne.symm k12, Sys.emit,
      keyCommand, keyTable, GLFW_KEY_A, GLFW_KEY_D, GLFW_KEY_E, GLFW_KEY_F, GLFW_KEY_Q,
      GLFW_KEY_R, GLFW_KEY_S, GLFW_KEY_W, GLFW_KEY_RIGHT, GLFW_KEY_LEFT, GLFW_KEY_DOWN,
      GLFW_KEY_UP]
  · rw [if_neg ha]
    simp [keyInput, ha, Sys.emit]

/-- The camera calls of a list of camera calls. -/
theorem cameraCalls_map_camera (cs : List CameraCall) :
    cameraCalls (cs.map Call.camera) = cs := by
  induction cs with
  | nil => rfl
  | cons c cs ih => simp [cameraCalls, ih]

/-- The camera calls of a concatenation. -/
theorem cameraCalls_append (as bs : List Call) :
    cameraCalls (as ++ bs) = cameraCalls as ++ cameraCalls bs := by
  induction as with
  | nil => rfl
  | cons a as ih => cases a <;> simp [cameraCalls, ih]

/-- The camera calls of one key event. -/
theorem keyInput_cameraCalls (rad : ℚ → ℚ) (s : Sys) (key scancode action mods : Int) :
    cameraCalls (issued s (keyInput rad s key scancode action mods)) =
      if action = GLFW_PRESS ∨ action = GLFW_REPEAT then (keyCommand rad key).toList else [] := by
  rw [issued_append s _ _ (keyInput_trace rad s key scancode action mods)]
  split_ifs <;> simp [cameraCalls, cameraCalls_map_camera]

/-- The calls issued over two consecutive steps. -/
theorem issued_trans (s t u : Sys) (as bs : List Call) (h1 : t.trace = s.trace ++ as)
    (h2 : u.trace = t.trace ++ bs) : issued s u = issued s t ++ issued t u := by
  rw [issued_append s t as h1, issued_append t u bs h2,
    issued_append s u (as ++ bs) (by rw [h2, h1, List.append_assoc])]

/-- C3. A key event whose action is neither `GLFW_PRESS` nor `GLFW_REPEAT`
issues no camera command.  A press or repeat event issues the command that the
table `keyTable` gives for its key (A, D, W, S, R, F translate by `0.5`, `-0.5`
along x, `0.2`, `-0.2` along y, `0.5`, `-0.5` along z; Q, E yaw by `rad 2`,
`rad (-2)`; Up, Down pitch by `rad (-2)`, `rad 2`; Left, Right roll by `rad 2`,
`rad (-2)`), at most one command, and none for a key outside the table; the
table has one row per key; press and repeat of the same key issue the same
command, whatever the state, scancode and modifiers. -/
theorem keyInput_commands (rad : ℚ → ℚ) (s : Sys) (key scancode action mods : Int) :
    (action ≠ GLFW_PRESS → action ≠ GLFW_REPEAT →
      cameraCalls (issued s (keyInput rad s key scancode action mods)) = []) ∧
    (action = GLFW_PRESS ∨ action = GLFW_REPEAT →
      cameraCalls (issued s (keyInput rad s key scancode action mods)) =
          (keyCommand rad key).toList ∧
        (cameraCalls (issued s (keyInput rad s key scancode action mods))).length ≤ 1 ∧
        (key ∉ (keyTable rad).map Prod.fst →
          cameraCalls (issued s (keyInput rad s key scancode action mods)) = [])) ∧
    (∀ (t : Sys) (scancode2 mods2 : Int),
      cameraCalls (issued s (keyInput rad s key scancode GLFW_PRESS mods)) =
        cameraCalls (issued t (keyInput rad t key scancode2 GLFW_REPEAT mods2))) ∧
    ((keyTable rad).map Prod.fst).Nodup := by
  refine ⟨?_, ?_, ?_, ?_⟩
  · intro h1 h2
    rw [keyInput_cameraCalls, if_neg (by simp [h1, h2])]
  · intro ha
    rw [keyInput_cameraCalls, if_pos ha]
    refine ⟨rfl, ?_, ?_⟩
    · cases keyCommand rad key <;> simp
    · intro hk
      have : keyCommand rad key = none := by
        simp only [keyCommand, Option.map_eq_none', List.find?_eq_none]
        intro p hp
        simp only [decide_eq_true_eq]
        intro hpk
        exact hk (hpk ▸ List.mem_map_of_mem Prod.fst hp)
      simp [this]
  · intro t sc2 m2
    rw [keyInput_cameraCalls, keyInput_cameraCalls]
    simp [GLFW_PRESS, GLFW_REPEAT]
  · simp [keyTable, GLFW_KEY_A, GLFW_KEY_D, GLFW_KEY_E, GLFW_KEY_F, GLFW_KEY_Q, GLFW_KEY_R,
      GLFW_KEY_S, GLFW_KEY_W, GLFW_KEY_RIGHT, GLFW_KEY_LEFT, GLFW_KEY_DOWN, GLFW_KEY_UP]

/-- C3, witness: a repeat of E issues the table's command for E. -/
theorem keyInput_commands_witness :
    cameraCalls (issued startSys (keyInput exampleRadians startSys GLFW_KEY_E 0 GLFW_REPEAT 0)) =
      (keyCommand exampleRadians GLFW_KEY_E).toList :=
  ((keyInput_commands exampleRadians startSys GLFW_KEY_E 0 GLFW_REPEAT 0).2.1
    (Or.inr rfl)).1

/-- The table gives the two keys of a pair the same operation with opposite
arguments, when the conversion to radians sends `-2` to the opposite of what it
sends `2` to. -/
theorem keyCommand_opposite (rad : ℚ → ℚ) (hodd : rad (-2) = -rad 2) (k1 k2 : Int)
    (hpair : (k1, k2) ∈ oppositeKeys ∨ (k2, k1) ∈ oppositeKeys) :
    ∃ c, keyCommand rad k1 = some c ∧ keyCommand rad k2 = some c.negated := by
  simp only [oppositeKeys, List.mem_cons, Prod.mk.injEq, List.mem_singleton, List.not_mem_nil,
    or_false] at hpair
  rcases hpair with (⟨h1, h2⟩ | ⟨h1, h2⟩ | ⟨h1, h2⟩ | ⟨h1, h2⟩ | ⟨h1, h2⟩ | ⟨h1, h2⟩) |
    (⟨h1, h2⟩ | ⟨h1, h2⟩ | ⟨h1, h2⟩ | ⟨h1, h2⟩ | ⟨h1, h2⟩ | ⟨h1, h2⟩)
  all_goals
    subst h1 h2
    simp [keyCommand, keyTable, CameraCall.negated, hodd, GLFW_KEY_A, GLFW_KEY_D, GLFW_KEY_E,
      GLFW_KEY_F, GLFW_KEY_Q, GLFW_KEY_R, GLFW_KEY_S, GLFW_KEY_W, GLFW_KEY_RIGHT, GLFW_KEY_LEFT,
      GLFW_KEY_DOWN, GLFW_KEY_UP]

/-- The conversion from degrees to radians sends opposite angles to opposite angles. -/
theorem degreesToRadians_neg (pi degrees : ℚ) :
    degreesToRadians pi (-degrees) = -degreesToRadians pi degrees := by
  simp only [degreesToRadians]
  ring

/-- C4. Let the angle steps be converted by `degreesToRadians` (multiplication by
pi / 180, for any value of the constant), and let `k1`, `k2` be the two keys of
one of the pairs Q/E, Down/Up, Left/Right, A/D, W/S, R/F, in either order, each
pressed or repeated.  Then the first key issues one camera call `c`, the second
issues the same operation with exactly the opposite arguments, and the two
events together issue `c` then its opposite.  In every camera in which that
operation by an argument followed by the opposite argument is the identity,
performing the two calls leaves the camera, and so its view matrix, as it
was. -/
theorem keyInput_opposite_keys {Cam : Type} (ops : CameraOps Cam) (pi : ℚ) (s : Sys)
    (k1 k2 : Int) (hpair : (k1, k2) ∈ oppositeKeys ∨ (k2, k1) ∈ oppositeKeys)
    (scancode1 action1 mods1 scancode2 action2 mods2 : Int)
    (ha1 : action1 = GLFW_PRESS ∨ action1 = GLFW_REPEAT)
    (ha2 : action2 = GLFW_PRESS ∨ action2 = GLFW_REPEAT) :
    ∃ c : CameraCall,
      cameraCalls (issued s (keyInput (degreesToRadians pi) s k1 scancode1 action1 mods1)) =
        [c] ∧
      cameraCalls (issued (keyInput (degreesToRadians pi) s k1 scancode1 action1 mods1)
        (keyInput (degreesToRadians pi)
          (keyInput (degreesToRadians pi) s k1 scancode1 action1 mods1)
          k2 scancode2 action2 mods2)) = [c.negated] ∧
      cameraCalls (issued s
        (keyInput (degreesToRadians pi)
          (keyInput (degreesToRadians pi) s k1 scancode1 action1 mods1)
          k2 scancode2 action2 mods2)) = [c, c.negated] ∧
      (ops.Reversible c → ∀ cam : Cam,
        ops.run (cameraCalls (issued s
          (keyInput (degreesToRadians pi)
            (keyInput (degreesToRadians pi) s k1 scancode1 action1 mods1)
            k2 scancode2 action2 mods2))) cam = cam ∧
        ops.getViewMatrix (ops.run (cameraCalls (issued s
          (keyInput (degreesToRadians pi)
            (keyInput (degreesToRadians pi) s k1 scancode1 action1 mods1)
            k2 scancode2 action2 mods2))) cam) = ops.getViewMatrix cam) := by
  obtain ⟨c, hc1, hc2⟩ :=
    keyCommand_opposite (degreesToRadians pi) (degreesToRadians_neg pi 2) k1 k2 hpair
  have e1 : cameraCalls (issued s
      (keyInput (degreesToRadians pi) s k1 scancode1 action1 mods1)) = [c] := by
    rw [keyInput_cameraCalls, if_pos ha1, hc1]; rfl
  have e2 : cameraCalls (issued (keyInput (degreesToRadians pi) s k1 scancode1 action1 mods1)
      (keyInput (degreesToRadians pi)
        (keyInput (degreesToRadians pi) s k1 scancode1 action1 mods1)
        k2 scancode2 action2 mods2)) = [c.negated] := by
    rw [keyInput_cameraCalls, if_pos ha2, hc2]; rfl
  have e3 : cameraCalls (issued s
      (keyInput (degreesToRadians pi)
        (keyInput (degreesToRadians pi) s k1 scancode1 action1 mods1)
        k2 scancode2 action2 mods2)) = [c, c.negated] := by
    rw [issued_trans s _ _ _ _
      (keyInput_trace (degreesToRadians pi) s k1 scancode1 action1 mods1)
      (keyInput_trace (degreesToRadians pi) _ k2 scancode2 action2 mods2),
      cameraCalls_append, e1, e2]
    rfl
  refine ⟨c, e1, e2, e3, ?_⟩
  intro hrev cam
  rw [e3]
  have hrun : ops.run [c, c.negated] cam = cam := by
    cases c <;>
      simp_all [CameraOps.run, CameraOps.perform, CameraCall.negated, CameraOps.Reversible,
        keyCommand, keyTable]
  rw [hrun]
  exact ⟨rfl, rfl⟩

/-- C4, witness: Q then E, with 355 / 113 for pi, on a camera that accumulates its
angles. -/
theorem keyInput_opposite_keys_witness :
    angleCameraOps.run
      (cameraCalls (issued startSys
        (keyInput (degreesToRadians (355 / 113))
          (keyInput (degreesToRadians (355 / 113)) startSys GLFW_KEY_Q 0 GLFW_PRESS 0)
          GLFW_KEY_E 0 GLFW_REPEAT 0)))
      ⟨⟨0, 1, 5⟩, 0, 0, 0, 45⟩ = ⟨⟨0, 1, 5⟩, 0, 0, 0, 45⟩ := by
  obtain ⟨c, h1, _, _, h4⟩ := keyInput_opposite_keys angleCameraOps (355 / 113)
    startSys GLFW_KEY_Q GLFW_KEY_E
    (Or.inl (by simp [oppositeKeys])) 0 GLFW_PRESS 0 0 GLFW_REPEAT 0 (Or.inl rfl) (Or.inr rfl)
  have hc : c = CameraCall.yaw (degreesToRadians (355 / 113) 2) := by
    rw [keyInput_cameraCalls] at h1
    simpa [keyCommand, keyTable, GLFW_KEY_A, GLFW_KEY_D, GLFW_KEY_E, GLFW_KEY_F, GLFW_KEY_Q,
      GLFW_KEY_R, GLFW_KEY_S, GLFW_KEY_W, GLFW_PRESS, eq_comm] using h1
  subst hc
  exact (h4 (by intro a cam; simp [angleCameraOps]) _).1

/-! ## Set-up and shutdown: results -/

/-- C5 (the code at the failing input).  After `init()` and `cleanup()` on any
device: `init()` created the vertex array `vao` with `glGenVertexArrays`;
`cleanup()` issues `glBindVertexArray(0)` and three `glDeleteBuffers`, the last
one on `vao`; `glDeleteVertexArrays` is never called on `vao`; and `vao` is
still a live vertex array afterwards, while the two buffers are not live any
more. -/
theorem cleanup_leaks_vertex_array (loadMeshes : List String → MeshConsolidator)
    (getAttribLocation : String → Int) (s : Sys) :
    Call.glGenVertexArrays (init loadMeshes getAttribLocation s).app.vao ∈
        issued s (init loadMeshes getAttribLocation s) ∧
      issued (init loadMeshes getAttribLocation s)
          (cleanup (init loadMeshes getAttribLocation s)) =
        [Call.glBindVertexArray 0,
         Call.glDeleteBuffers (init loadMeshes getAttribLocation s).app.vbo_normals,
         Call.glDeleteBuffers (init loadMeshes getAttribLocation s).app.vbo_vertices,
         Call.glDeleteBuffers (init loadMeshes getAttribLocation s).app.vao] ∧
      Call.glDeleteVertexArrays (init loadMeshes getAttribLocation s).app.vao ∉
        issued s (cleanup (init loadMeshes getAttribLocation s)) ∧
      (init loadMeshes getAttribLocation s).app.vao ∈
        (cleanup (init loadMeshes getAttribLocation s)).gl.vertexArrays ∧
      (init loadMeshes getAttribLocation s).app.vbo_vertices ∉
        (cleanup (init loadMeshes getAttribLocation s)).gl.buffers ∧
      (init loadMeshes getAttribLocation s).app.vbo_normals ∉
        (cleanup (init loadMeshes getAttribLocation s)).gl.buffers := by
  simp [init, setupShaders, setupGLBuffers, setupMatrices, cleanup, glGenVertexArrays,
    glGenBuffers, glDeleteBuffers, Sys.emit, issued]

/-- On a device without objects `init()` obtains the vertex array 1 and the
buffers 1 and 2; `cleanup()` deletes the buffers 2 and 1, then calls
`glDeleteBuffers` on the name 1 once more, and the vertex array 1 stays live. -/
theorem cleanup_leaks_vertex_array_example :
    sceneSys.gl = ⟨[1], [2, 1]⟩ ∧ (cleanup sceneSys).gl = ⟨[1], []⟩ ∧
      issued sceneSys (cleanup sceneSys) =
        [Call.glBindVertexArray 0, Call.glDeleteBuffers 2, Call.glDeleteBuffers 1,
         Call.glDeleteBuffers 1] := by
  simp [sceneSys, startSys, init, setupShaders, setupGLBuffers, setupMatrices, cleanup,
    glGenVertexArrays, glGenBuffers, glDeleteBuffers, Sys.emit, issued, freshName,
    CameraExample.construct, blankMembers]

/-! ## The light marker: results -/

/-- C9. Whether `drawLight()` returns or throws, the model matrix it computes
and sets as `ModelMatrix` is `T(p) * S(0.2)` for the light position `p`,
whatever `modelMatrix_light` was before: it maps every cube-local point `v` to
`p + 0.2 * v`, and the cube's origin to `p` itself. -/
theorem drawLight_modelMatrix (s : Sys) :
    ∃ e, (drawLight s = Except.ok e ∨ drawLight s = Except.error e) ∧
      e.app.modelMatrix_light =
        (translationMatrix s.app.lightSource.position).mul (scalingMatrix (1/5)) ∧
      Call.setUniform "ModelMatrix" (UniformValue.mat4
        ((translationMatrix s.app.lightSource.position).mul (scalingMatrix (1/5)))) ∈
          issued s e ∧
      (∀ v : Vec3, e.app.modelMatrix_light.mulVec v.point =
        Vec3.point ⟨s.app.lightSource.position.x + 1/5 * v.x,
          s.app.lightSource.position.y + 1/5 * v.y,
          s.app.lightSource.position.z + 1/5 * v.z⟩) ∧
      e.app.modelMatrix_light.mulVec (Vec3.point ⟨0, 0, 0⟩) =
        Vec3.point s.app.lightSource.position := by
  have hm : scale3 (translate Mat4.identity s.app.lightSource.position) (1/5) (1/5) (1/5) =
      (translationMatrix s.app.lightSource.position).mul (scalingMatrix (1/5)) := by
    simp [scale3, scale, translate, Mat4.identity, translationMatrix, scalingMatrix, Mat4.mul,
      Mat4.mulVec, Vec4.smul, Vec4.add]
  have hv : ∀ v : Vec3,
      ((translationMatrix s.app.lightSource.position).mul (scalingMatrix (1/5))).mulVec v.point =
        Vec3.point ⟨s.app.lightSource.position.x + 1/5 * v.x,
          s.app.lightSource.position.y + 1/5 * v.y,
          s.app.lightSource.position.z + 1/5 * v.z⟩ := by
    intro v
    simp [translationMatrix, scalingMatrix, Mat4.mul, Mat4.mulVec, Vec4.smul, Vec4.add,
      Vec3.point]
    refine ⟨?_, ?_, ?_⟩ <;> ring
  have h0 : ((translationMatrix s.app.lightSource.position).mul (scalingMatrix (1/5))).mulVec
      (Vec3.point ⟨0, 0, 0⟩) = Vec3.point s.app.lightSource.position := by
    rw [hv]
    simp
  simp only [one_div] at hm hv h0
  cases h : s.app.batchInfoVec[4]? with
  | none =>
    simp [drawLight, batchInfoVecAt, h, bind, Except.bind, Sys.emit, issued]
    exact ⟨hm, hm.symm, fun v => hm ▸ hv v, hm ▸ h0⟩
  | some b =>
    simp [drawLight, batchInfoVecAt, h, bind, Except.bind, pure, Except.pure, Sys.emit, issued]
    exact ⟨hm, hm.symm, fun v => hm ▸ hv v, hm ▸ h0⟩

/-! ## Drawing: the theorems at a concrete scene -/

/-- C7, witness: the scene of five example batches. -/
theorem draw_trace_witness :
    5 ≤ sceneSys.app.batchInfoVec.length ∧
      ∃ s', draw sceneSys = Except.ok s' ∧
        issued sceneSys s' =
          objectBlocks s'.app sceneObjects sceneSys.app.batchInfoVec ++ [Call.checkGLErrors] ∧
        bracketScan false (issued sceneSys s') = some false :=
  ⟨by decide, draw_trace sceneSys (by decide)⟩

/-- C7, counterexample.  With four batches `draw()` throws in `drawLight`: only four
draws are issued, and the trace ends inside a bracket, the last enable having
no disable. -/
theorem draw_trace_short :
    ∃ e, draw shortSys = Except.error e ∧
      drawCalls (issued shortSys e) =
        [(GL_TRIANGLES, 0, 6), (GL_TRIANGLES, 6, 30), (GL_TRIANGLES, 36, 60),
         (GL_TRIANGLES, 96, 12)] ∧
      bracketScan false (issued shortSys e) = some true :=
  ⟨_, rfl, rfl, rfl⟩

/-- C1, witness: the five draws over the five example batches. -/
theorem draw_ranges_witness :
    5 ≤ sceneSys.app.batchInfoVec.length ∧ ∃ s', draw sceneSys = Except.ok s' ∧
      drawCalls (issued sceneSys s') =
        [(GL_TRIANGLES, 0, 6), (GL_TRIANGLES, 6, 30), (GL_TRIANGLES, 36, 60),
         (GL_TRIANGLES, 96, 12), (GL_TRIANGLES, 108, 36)] := by
  obtain ⟨s1, s2, s3, s4, s5, _, _, _, _, _, hd, _, _, _, _, _, hall⟩ :=
    draw_ranges sceneSys (by decide)
  exact ⟨by decide, _, hd, hall⟩

/-- C8, witness: the scene of five example batches. -/
theorem draw_idempotent_witness :
    5 ≤ sceneSys.app.batchInfoVec.length ∧
      ∃ s1 s2, draw sceneSys = Except.ok s1 ∧ draw s1 = Except.ok s2 ∧
        (∀ o : SceneObject, o.material s1.app = o.materialConstant) ∧
        s1.app.modelMatrix_light =
          scale3 (translate Mat4.identity sceneSys.app.lightSource.position) (1/5) (1/5) (1/5) ∧
        s2.app = s1.app ∧ s2.gl = s1.gl ∧ issued s1 s2 = issued sceneSys s1 :=
  ⟨by decide, draw_idempotent sceneSys (by decide)⟩

/-- C10, witness: without batches `draw()` throws before any draw is issued. -/
theorem draw_completes_iff_witness :
    ∃ e, draw startSys = Except.error e ∧ drawCalls (issued startSys e) = [] := by
  obtain ⟨e, o, h1, _, _, h4⟩ := (draw_completes_iff startSys).2 (by decide)
  exact ⟨e, h1, h4⟩

end Rigid3D
